import Mathlib

/-!
# Verification of the usermanager account-lifecycle and ledger domain model

This file is a shallow embedding of the domain logic of the repository
(`domain_models.py` plus the ledger/state fragments of `server.py`) into
Lean 4, together with theorems settling the specification claims.

Modelling conventions:
* Python values that flow through the loosely-typed dictionaries are
  modelled by the inductive type `Value` (`None`, `bool`, `int`, `float`,
  `str`).  Python floats are modelled as rationals (`ℚ`); the repository
  performs only arithmetic, comparison and 2-decimal rounding on them.
* A string value carries the result of Python `float()` / `int()` applied
  to it as explicit `Option` annotations (`Value.vStr s fv iv`), so the
  embedding is parametric in the numeric-literal parser instead of
  re-implementing it.  The annotations of strings produced by the program
  itself are never consulted by any theorem.
* String-or-None dictionary slots are modelled as `Option String`
  (`none` = Python `None` or an absent key, when the code only reads the
  slot through `dict.get`); the one slot whose key *presence* is tested
  (`assigned_distributor`) is modelled as `Option (Option String)`.
* Fallible Python conversions return `Option`; `try/except` blocks become
  pattern matches on those options.
* Fresh UUIDs and clock reads become explicit `String` parameters.
-/

namespace UserManager

/-- Model of a dynamically-typed Python value as stored in the legacy
dictionaries.  A `vStr` carries the (possibly failing) results of Python
`float()` and `int()` conversions applied to the string. -/
inductive Value where
  | vNone : Value
  | vBool (b : Bool) : Value
  | vInt (n : ℤ) : Value
  | vFloat (q : ℚ) : Value
  | vStr (s : String) (fv : Option ℚ) (iv : Option ℤ) : Value
deriving DecidableEq, Repr

namespace Value

/-- Python truthiness of a value. -/
def truthy : Value → Bool
  | vNone => false
  | vBool b => b
  | vInt n => n != 0
  | vFloat q => q != 0
  | vStr s _ _ => !s.isEmpty

/-- Python `float(v)`: `none` when the conversion raises. -/
def pyFloat : Value → Option ℚ
  | vNone => none
  | vBool b => some (if b then 1 else 0)
  | vInt n => some (n : ℚ)
  | vFloat q => some q
  | vStr _ fv _ => fv

/-- Truncation toward zero, the behaviour of Python `int()` on a float. -/
def ratTrunc (q : ℚ) : ℤ := if 0 ≤ q then ⌊q⌋ else ⌈q⌉

/-- Python `int(v)`: `none` when the conversion raises. -/
def pyInt : Value → Option ℤ
  | vNone => none
  | vBool b => some (if b then 1 else 0)
  | vInt n => some n
  | vFloat q => some (ratTrunc q)
  | vStr _ _ iv => iv

/-- Python equality of a value with a string literal (only a `str` can
compare equal to a string). -/
def isStr (v : Value) (s : String) : Bool :=
  match v with
  | vStr t _ _ => t == s
  | _ => false

/-- Extract the underlying string of a `str` value (only consulted on
values known to be strings). -/
def getStr : Value → String
  | vStr s _ _ => s
  | _ => ""

/-- Python `v or 0`. -/
def orZero (v : Value) : Value := if v.truthy then v else vInt 0

end Value

open Value

/-- A string value produced by the program itself (its numeric-parse
annotations are never consulted). -/
def mkStr (s : String) : Value := Value.vStr s none none

/-- Python `a or b` on two string-or-None slots (`none` and the empty
string are falsy). -/
def strTruthyO : Option String → Bool
  | none => false
  | some s => !s.isEmpty

/-- Python `a or b` for string-or-None values. -/
def pyOrS (a b : Option String) : Option String := if strTruthyO a then a else b

-- ---- Constants (from `domain_models.py`) --------------------------------

def ACCOUNT_STATUS_AGENT_STOCK : String := "agent_stock"
def ACCOUNT_STATUS_DISTRIBUTOR_STOCK : String := "distributor_stock"
def ACCOUNT_STATUS_SOLD : String := "sold"

def SALE_TYPE_DIRECT : String := "direct_sale"
def SALE_TYPE_DISTRIBUTION : String := "distribution_sale"

def ROLE_ADMIN : String := "admin"
def ROLE_AGENT : String := "agent"
def ROLE_DISTRIBUTOR : String := "distributor"
def ROLE_CUSTOMER : String := "customer"

def TRANSACTION_ADMIN_TO_AGENT : String := "admin_to_agent_wholesale"
def TRANSACTION_AGENT_PURCHASE : String := "agent_purchase"
def TRANSACTION_AGENT_DIRECT_SALE : String := "agent_direct_sale"
def TRANSACTION_AGENT_TO_DISTRIBUTOR : String := "agent_to_distributor_wholesale"
def TRANSACTION_DISTRIBUTOR_SALE : String := "distributor_sale"
def TRANSACTION_ASSIGNMENT : String := "distribution_assignment"
def TRANSACTION_LEGACY : String := "legacy"

-- ---- Account state -------------------------------------------------------

/-- The `accounting` sub-dictionary of a user record (`dict.get` reads on
its five keys only, so value `None` and an absent key coincide). -/
structure Acct where
  owner : Option String := none
  manager : Option String := none
  status : Option String := none
  sale_type : Option String := none
  sold_at : Option String := none
deriving DecidableEq, Repr

/-- The `AccountState` dataclass. -/
@[ext]
structure AccountState where
  owner : Option String := none
  manager : Option String := none
  status : Option String := some ACCOUNT_STATUS_AGENT_STOCK
  sale_type : Option String := none
  sold_at : Option String := none
deriving DecidableEq, Repr

/-- `AccountState()` with the dataclass defaults. -/
def defaultAccountState : AccountState := {}

/-- A user record: the dictionary slots read or written by the domain
functions.  `assigned_distributor` keeps its key-presence bit because
`_is_inventory_record` tests `"assigned_distributor" in data`. -/
@[ext]
structure Record where
  owner : Option String := none
  manager : Option String := none
  assigned_distributor : Option (Option String) := none
  status : Option String := none
  sale_type : Option String := none
  sold_at : Option String := none
  forsale : Option Value := none
  distribution_tag : Option Value := none
  distributor_forsale : Option Value := none
  distributor_sold : Option Value := none
  source : Option String := none
  roles : Option (List String) := none
  is_admin : Option Value := none
  is_agent : Option Value := none
  is_distributor : Option Value := none
  accounting : Option Acct := none
deriving DecidableEq, Repr

/-- `AccountState.ensure_defaults`. -/
def ensureDefaults (st : AccountState) : AccountState :=
  let st := if strTruthyO st.manager then st else { st with manager := st.owner }
  let st := if st.status ∈ [some ACCOUNT_STATUS_AGENT_STOCK,
      some ACCOUNT_STATUS_DISTRIBUTOR_STOCK, some ACCOUNT_STATUS_SOLD] then st
    else { st with status := some ACCOUNT_STATUS_AGENT_STOCK }
  if st.sale_type ∈ [some SALE_TYPE_DIRECT, some SALE_TYPE_DISTRIBUTION, none] then st
  else { st with sale_type := none }

/-- `_is_inventory_record`. -/
def isInventoryRecord (d : Record) : Bool :=
  strTruthyO d.owner ||
    (d.forsale.isSome || d.distribution_tag.isSome || d.distributor_forsale.isSome ||
      d.assigned_distributor.isSome) ||
    d.source ∈ [some "agent", some "batch", some "distribution", some "admin_transfer"]

/-- The sorted set of roles (`sorted(set(l))`). -/
def canonRoles (l : List String) : List String :=
  l.dedup.insertionSort (· ≤ ·)

/-- `_normalise_roles`. -/
def normaliseRoles (d : Record) : Record :=
  let rs := d.roles.getD []
  let rs := if (d.is_admin.getD .vNone).truthy then rs.insert ROLE_ADMIN else rs
  let rs := if (d.is_agent.getD .vNone).truthy then rs.insert ROLE_AGENT else rs
  let rs := if (d.is_distributor.getD .vNone).truthy then rs.insert ROLE_DISTRIBUTOR else rs
  let rs := if rs.isEmpty then [ROLE_CUSTOMER] else rs
  let sorted := canonRoles rs
  { d with
    roles := some sorted
    is_admin := some (.vBool (ROLE_ADMIN ∈ rs))
    is_agent := some (.vBool (ROLE_AGENT ∈ rs))
    is_distributor := some (.vBool (ROLE_DISTRIBUTOR ∈ rs)) }

/-- The guard in `_sync_legacy_flags`: business accounts (agent, admin or
distributor role) do not carry inventory status. -/
def hasBusinessRole (d : Record) : Bool :=
  let roles := d.roles.getD []
  ROLE_AGENT ∈ roles || ROLE_ADMIN ∈ roles || ROLE_DISTRIBUTOR ∈ roles

/-- `_sync_legacy_flags`: mirror the canonical state to the legacy
fields. -/
def syncLegacyFlags (d : Record) (st : AccountState) : Record :=
  if hasBusinessRole d then d
  else
    let d := { d with owner := st.owner, manager := st.manager }
    let d :=
      if st.status = some ACCOUNT_STATUS_AGENT_STOCK then
        { d with
          forsale := some (.vBool true)
          distribution_tag := some (.vBool false)
          distributor_forsale := some (.vBool false)
          distributor_sold := some (.vBool false)
          assigned_distributor := none }
      else if st.status = some ACCOUNT_STATUS_DISTRIBUTOR_STOCK then
        { d with
          forsale := some (.vBool false)
          distribution_tag := some (.vBool true)
          distributor_forsale := some (.vBool true)
          distributor_sold := some (.vBool false)
          assigned_distributor := some st.manager }
      else
        { d with
          forsale := some (.vBool false)
          distribution_tag :=
            some (.vBool (strTruthyO st.manager && st.manager != st.owner))
          distributor_forsale := some (.vBool false)
          distributor_sold := some (.vBool (st.sale_type == some SALE_TYPE_DISTRIBUTION))
          assigned_distributor :=
            if strTruthyO st.manager && st.manager != st.owner then some st.manager else none }
    let d :=
      if st.sale_type = some SALE_TYPE_DIRECT then { d with sale_type := some "总部直销" }
      else if st.sale_type = some SALE_TYPE_DISTRIBUTION then
        { d with sale_type := some "分销售出" }
      else { d with sale_type := none }
    if strTruthyO st.sold_at then { d with sold_at := st.sold_at } else d

/-- The `accounting` dictionary of a record, `{}` when absent
(`data.setdefault("accounting", {})`). -/
def acctOf (d : Record) : Acct := d.accounting.getD {}

/-- The `AccountState(...)` constructed at the top of `ensure_accounting`. -/
def resolveState0 (d : Record) : AccountState :=
  { owner := pyOrS (acctOf d).owner d.owner
    manager := pyOrS (acctOf d).manager
      (pyOrS d.manager (pyOrS (d.assigned_distributor.getD none) d.owner))
    status := pyOrS (acctOf d).status d.status
    sale_type := pyOrS (acctOf d).sale_type d.sale_type
    sold_at := pyOrS (acctOf d).sold_at d.sold_at }

/-- `if state.status is None: state.status = ACCOUNT_STATUS_AGENT_STOCK`. -/
def statusNoneFix (st : AccountState) : AccountState :=
  if st.status = none then { st with status := some ACCOUNT_STATUS_AGENT_STOCK } else st

/-- The legacy `sale_type` inference of `ensure_accounting`. -/
def saleTypeInfer (d : Record) (st : AccountState) : AccountState :=
  if strTruthyO st.sale_type then st
  else if d.sale_type ∈ [some SALE_TYPE_DIRECT, some "总部直销", some "direct"] then
    { st with sale_type := some SALE_TYPE_DIRECT }
  else if d.sale_type ∈ [some SALE_TYPE_DISTRIBUTION, some "分销售出", some "distribution"] then
    { st with sale_type := some SALE_TYPE_DISTRIBUTION }
  else st

/-- The test `data.get("forsale") in (False, 0, "false", "False")`. -/
def isFalseLike (v : Value) : Bool :=
  match v with
  | .vBool b => !b
  | .vInt n => n == 0
  | .vFloat q => q == 0
  | .vStr s _ _ => s == "false" || s == "False"
  | .vNone => false

/-- The legacy-flag status fallback of `ensure_accounting`
(`if not state.status: ...`). -/
def statusFallback (d : Record) (st : AccountState) : AccountState :=
  if strTruthyO st.status then st
  else if (d.distributor_forsale.getD .vNone).truthy then
    { st with status := some ACCOUNT_STATUS_DISTRIBUTOR_STOCK }
  else if isFalseLike (d.forsale.getD .vNone) then
    { st with status := some ACCOUNT_STATUS_SOLD }
  else { st with status := some ACCOUNT_STATUS_AGENT_STOCK }

/-- The state computed by `ensure_accounting` (constructor, first
`ensure_defaults`, `None` fix, sale-type inference, status fallback,
second `ensure_defaults`). -/
def resolveState (d : Record) : AccountState :=
  ensureDefaults (statusFallback d (saleTypeInfer d (statusNoneFix
    (ensureDefaults (resolveState0 d)))))

/-- The five-field dictionary written back into `accounting`. -/
def AccountState.toAcct (st : AccountState) : Acct :=
  { owner := st.owner
    manager := st.manager
    status := st.status
    sale_type := st.sale_type
    sold_at := st.sold_at }

/-- Write a state into the `accounting` dictionary of a record. -/
def writeAcct (d : Record) (st : AccountState) : Record :=
  { d with accounting := some st.toAcct }

/-- `ensure_accounting`: returns the state and the updated record. -/
def ensureAccounting (d : Record) : AccountState × Record :=
  let st := resolveState d
  (st, syncLegacyFlags (writeAcct d st) st)

/-- The five keyword-only arguments of `update_account_state`
(`none` = the Python default `None`, i.e. "leave the field unchanged"). -/
structure UpdateArgs where
  owner : Option String := none
  manager : Option String := none
  status : Option String := none
  sale_type : Option String := none
  sold_at : Option String := none
deriving DecidableEq, Repr

/-- The `if <arg> is not None: state.<field> = <arg>` block of
`update_account_state`. -/
def applyArgs (st : AccountState) (a : UpdateArgs) : AccountState :=
  { owner := if a.owner.isSome then a.owner else st.owner
    manager := if a.manager.isSome then a.manager else st.manager
    status := if a.status.isSome then a.status else st.status
    sale_type := if a.sale_type.isSome then a.sale_type else st.sale_type
    sold_at := if a.sold_at.isSome then a.sold_at else st.sold_at }

/-- The state returned by `update_account_state` on an inventory record. -/
def finalState (d : Record) (a : UpdateArgs) : AccountState :=
  ensureDefaults (applyArgs (resolveState d) a)

/-- `update_account_state`: returns the resulting state and record. -/
def updateAccountState (d : Record) (a : UpdateArgs) : AccountState × Record :=
  if isInventoryRecord d then
    let p := ensureAccounting d
    let st := finalState d a
    (st, syncLegacyFlags (writeAcct p.2 st) st)
  else
    (defaultAccountState, normaliseRoles d)

-- ---- Ledger --------------------------------------------------------------

/-- Round half to even, the tie-breaking of Python `round`. -/
def roundHalfEven (q : ℚ) : ℤ :=
  let f := ⌊q⌋
  let r := q - f
  if r < 1/2 then f
  else if 1/2 < r then f + 1
  else if f % 2 = 0 then f else f + 1

/-- Python `round(q, 2)`. -/
def pyRound2 (q : ℚ) : ℚ := (roundHalfEven (q * 100) : ℚ) / 100

/-- A raw ledger dictionary: the keys read by `LedgerEntry.from_raw` and
written by `LedgerEntry.to_dict`; `none` means the key is absent. -/
structure Raw where
  id : Option Value := none
  time : Option Value := none
  actor : Option Value := none
  actor_role : Option Value := none
  transaction_type : Option Value := none
  direction : Option Value := none
  amount : Option Value := none
  quantity : Option Value := none
  product : Option Value := none
  account_username : Option Value := none
  counterparty : Option Value := none
  sale_type : Option Value := none
  metadata : Option (List (String × Value)) := none
  admin : Option Value := none
  role : Option Value := none
  price : Option Value := none
  count : Option Value := none
  revenue : Option Value := none
  username : Option Value := none
  agent : Option Value := none
  distributor : Option Value := none
  user_id : Option Value := none
deriving DecidableEq, Repr

/-- `raw.get(key)` on a key modelled with explicit presence. -/
def rawGet (o : Option Value) : Value := o.getD .vNone

/-- Python `a or b` on values. -/
def pyOrV (a b : Value) : Value := if a.truthy then a else b

/-- Python `str(v)`.  The numeric renderings are a model artifact; no
theorem depends on them (the program only calls `str` on values that are
already strings, `None`, or fresh UUIDs). -/
def pyStr : Value → String
  | .vNone => "None"
  | .vBool b => if b then "True" else "False"
  | .vInt n => toString n
  | .vFloat q => toString q
  | .vStr s _ _ => s

/-- The normalised `LedgerEntry` dataclass. -/
structure LedgerEntry where
  id : String
  time : String
  actor : String
  actor_role : String
  transaction_type : String
  direction : String
  amount : ℚ
  quantity : ℤ
  product : Value := .vNone
  account_username : Value := .vNone
  counterparty : Value := .vNone
  sale_type : Option String := none
  metadata : List (String × Value) := []
deriving DecidableEq, Repr

/-- `LedgerEntry.from_raw._get_amount`. -/
def getAmount (raw : Raw) : ℚ :=
  match raw.amount with
  | some v => ((v.orZero).pyFloat).getD 0
  | none =>
    let revenue := rawGet raw.revenue
    let price := rawGet raw.price
    let count := rawGet raw.count
    let fromRevenue : Option ℚ :=
      if revenue = .vNone then none else (revenue.orZero).pyFloat
    match fromRevenue with
    | some q => q
    | none =>
      match (price.orZero).pyFloat, (count.orZero).pyInt with
      | some priceVal, some countVal0 =>
        let countVal := if countVal0 = 0 then 1 else countVal0
        priceVal * (countVal : ℚ)
      | _, _ => 0

/-- `LedgerEntry.from_raw._get_quantity`. -/
def getQuantity (raw : Raw) : ℤ :=
  let v := match raw.quantity with
    | some v => v
    | none => rawGet raw.count
  ((v.orZero).pyInt).getD 0

/-- `LedgerEntry.from_raw._get_direction`. -/
def getDirection (raw : Raw) : String :=
  let direction := rawGet raw.direction
  if direction.isStr "in" || direction.isStr "out" then direction.getStr
  else if (rawGet raw.transaction_type).isStr TRANSACTION_AGENT_PURCHASE then "out"
  else "in"

/-- `LedgerEntry.from_raw._get_sale_type`. -/
def getSaleType (raw : Raw) : Option String :=
  let v := rawGet raw.sale_type
  if v = .vNone then none
  else if v.isStr SALE_TYPE_DIRECT || v.isStr SALE_TYPE_DISTRIBUTION then some v.getStr
  else if v.isStr "总部直销" || v.isStr "direct" then some SALE_TYPE_DIRECT
  else if v.isStr "分销售出" || v.isStr "distribution" then some SALE_TYPE_DISTRIBUTION
  else none

/-- `dict.setdefault` on the metadata association list. -/
def metaSetdefault (m : List (String × Value)) (k : String) (v : Value) :
    List (String × Value) :=
  if m.any (fun p => p.1 == k) then m else m ++ [(k, v)]

/-- `LedgerEntry.from_raw`.  `freshId` models `uuid.uuid4()` and `nowStr`
models `datetime.now().strftime(...)`. -/
def fromRaw (freshId nowStr : String) (raw : Raw) : LedgerEntry :=
  let actor := pyOrV (rawGet raw.actor) (pyOrV (rawGet raw.admin) (mkStr ""))
  let role := pyOrV (rawGet raw.actor_role) (pyOrV (rawGet raw.role) (mkStr ROLE_ADMIN))
  let time := pyOrV (rawGet raw.time) (mkStr nowStr)
  let metadata := raw.metadata.getD []
  let metadata := metaSetdefault metadata "legacy_admin" (rawGet raw.admin)
  let metadata := metaSetdefault metadata "legacy_role" (rawGet raw.role)
  let metadata := metaSetdefault metadata "legacy_count" (rawGet raw.count)
  let metadata := metaSetdefault metadata "legacy_revenue" (rawGet raw.revenue)
  let metadata := metaSetdefault metadata "legacy_price" (rawGet raw.price)
  let metadata := metaSetdefault metadata "legacy_user_id" (rawGet raw.user_id)
  let metadata := metaSetdefault metadata "legacy_direction" (rawGet raw.direction)
  { id := pyStr (pyOrV (rawGet raw.id) (mkStr freshId))
    time := pyStr time
    actor := pyStr actor
    actor_role := pyStr role
    transaction_type := pyStr (pyOrV (rawGet raw.transaction_type) (mkStr TRANSACTION_LEGACY))
    direction := getDirection raw
    amount := getAmount raw
    quantity := getQuantity raw
    product := rawGet raw.product
    account_username := pyOrV (rawGet raw.account_username) (rawGet raw.username)
    counterparty := pyOrV (rawGet raw.counterparty)
      (pyOrV (rawGet raw.agent) (rawGet raw.distributor))
    sale_type := getSaleType raw
    metadata := metadata }

/-- The value stored for a canonical `Option String` field in a dict. -/
def optStrVal : Option String → Value
  | none => .vNone
  | some s => mkStr s

/-- `LedgerEntry.to_dict`. -/
def toDict (e : LedgerEntry) : Raw :=
  let price : ℚ := if e.quantity ≠ 0 then e.amount / (e.quantity : ℚ) else 0
  { id := some (mkStr e.id)
    time := some (mkStr e.time)
    actor := some (mkStr e.actor)
    actor_role := some (mkStr e.actor_role)
    transaction_type := some (mkStr e.transaction_type)
    direction := some (mkStr e.direction)
    amount := some (.vFloat (pyRound2 e.amount))
    quantity := some (.vInt e.quantity)
    product := some e.product
    account_username := some e.account_username
    counterparty := some e.counterparty
    sale_type := some (optStrVal e.sale_type)
    metadata := some e.metadata
    admin := some (mkStr e.actor)
    role := some (mkStr e.actor_role)
    price := some (.vFloat (pyRound2 price))
    count := some (.vInt e.quantity)
    revenue := some (.vFloat (pyRound2 e.amount))
    agent :=
      if e.counterparty.truthy then
        if e.actor_role = ROLE_AGENT then some (mkStr e.actor)
        else if e.actor_role = ROLE_ADMIN then some e.counterparty
        else none
      else none
    username := none
    distributor := none
    user_id := none }

/-- The Python default of the `direction` keyword of `build_ledger_entry`. -/
def buildDirectionDefault : String := "in"

/-- The keyword arguments of `build_ledger_entry` (with the Python
defaults). -/
structure BuildArgs where
  transaction_type : String
  actor : String
  actor_role : String
  amount : ℚ
  quantity : ℤ := 1
  product : Value := .vNone
  account_username : Value := .vNone
  counterparty : Value := .vNone
  sale_type : Option String := none
  direction : String := buildDirectionDefault
  occurred_at : Option String := none
  metadata : Option (List (String × Value)) := none
deriving DecidableEq, Repr

/-- The `LedgerEntry(...)` constructed inside `build_ledger_entry`
(`newId` models `uuid.uuid4()`, `nowStr` the clock). -/
def buildEntry (newId nowStr : String) (a : BuildArgs) : LedgerEntry :=
  { id := newId
    time := if strTruthyO a.occurred_at then a.occurred_at.getD "" else nowStr
    actor := a.actor
    actor_role := a.actor_role
    transaction_type := a.transaction_type
    direction := a.direction
    amount := if a.amount = 0 then 0 else a.amount
    quantity := if a.quantity = 0 then 0 else a.quantity
    product := a.product
    account_username := a.account_username
    counterparty := a.counterparty
    sale_type := a.sale_type
    metadata := a.metadata.getD [] }

/-- `build_ledger_entry`: builds the entry and returns its dict. -/
def buildLedgerEntry (newId nowStr : String) (a : BuildArgs) : Raw :=
  toDict (buildEntry newId nowStr a)

/-- `record_transaction`: appends the built entry to the log. -/
def recordTransaction (records : List Raw) (newId nowStr : String) (a : BuildArgs) :
    List Raw :=
  records ++ [buildLedgerEntry newId nowStr a]

-- ---- server.py fragments -------------------------------------------------

/-- `_pct_change` from `server.py`. -/
def pctChange (cur prev : ℚ) : ℚ :=
  if prev = 0 then (if cur > 0 then 100 else 0)
  else (cur - prev) / prev * 100

/-- The ledger writes of `_approve_application` in `server.py`: two
`record_transaction` calls for an approved agent application of
`count` units at unit price `price`. -/
def approveApplicationLedger (adminName agentName product : String) (price : ℚ)
    (count : ℤ) (id1 id2 nowStr : String) (records : List Raw) : List Raw :=
  let totalAmount := price * (count : ℚ)
  let records := recordTransaction records id1 nowStr
    { transaction_type := TRANSACTION_ADMIN_TO_AGENT
      actor := adminName
      actor_role := ROLE_ADMIN
      amount := totalAmount
      quantity := count
      product := mkStr product
      counterparty := mkStr agentName }
  recordTransaction records id2 nowStr
    { transaction_type := TRANSACTION_AGENT_PURCHASE
      actor := agentName
      actor_role := ROLE_AGENT
      amount := totalAmount
      quantity := count
      product := mkStr product
      counterparty := mkStr adminName
      direction := "out" }

/-- The per-record action of the `/distributor/mark-unsold` route in
`server.py`: guard on the accounting state, then
`update_account_state(..., status=distributor_stock, sale_type=None,
sold_at=None)`.  Returns the updated record and whether the request
succeeded. -/
def distributorMarkUnsoldRecord (currentDistributor : String) (d : Record) :
    Record × Bool :=
  let state := acctOf d
  if state.owner = some currentDistributor ∧
      state.status = some ACCOUNT_STATUS_SOLD ∧
      state.sale_type = some SALE_TYPE_DISTRIBUTION then
    ((updateAccountState d
      { owner := some currentDistributor
        manager := some currentDistributor
        status := some ACCOUNT_STATUS_DISTRIBUTOR_STOCK
        sale_type := none
        sold_at := none }).2, true)
  else (d, false)

-- ---- Ledger theorems -----------------------------------------------------

/-- The raw slot `o`, when it carries a numeric (`float`-convertible)
value, carries a non-negative one. -/
def nonNegNum (o : Option Value) : Prop :=
  ∀ q : ℚ, (rawGet o).pyFloat = some q → 0 ≤ q

/-- The raw slot `o`, when it carries an `int`-convertible value, carries
a non-negative one. -/
def nonNegIntVal (o : Option Value) : Prop :=
  ∀ n : ℤ, (rawGet o).pyInt = some n → 0 ≤ n

theorem fromRaw_amount (fid now : String) (raw : Raw) :
    (fromRaw fid now raw).amount = getAmount raw := rfl

theorem orZero_pyFloat_nonneg (v : Value) (h : ∀ q : ℚ, v.pyFloat = some q → 0 ≤ q)
    (q : ℚ) (hq : (v.orZero).pyFloat = some q) : 0 ≤ q := by
  by_cases ht : v.truthy
  · exact h q (by simpa [Value.orZero, ht] using hq)
  · simp [Value.orZero, ht, Value.pyFloat] at hq
    linarith

/-- C3 (amended): `from_raw` is total (the embedding is a function), and
the derived amount is non-negative provided every numeric value supplied
in the `amount`, `revenue`, `price` and `count` slots is non-negative.
(The unamended claim is refuted by `claim_C3_counterexample`: a negative
numeric `amount` passes straight through.) -/
theorem claim_C3_amount_nonneg (fid now : String) (raw : Raw)
    (hA : nonNegNum raw.amount) (hR : nonNegNum raw.revenue)
    (hP : nonNegNum raw.price) (hC : nonNegIntVal raw.count) :
    0 ≤ (fromRaw fid now raw).amount := by
  rw [fromRaw_amount]
  unfold getAmount
  cases hraw : raw.amount with
  | some v =>
    simp only []
    cases hf : ((v.orZero).pyFloat) with
    | none => simp
    | some q =>
      have : 0 ≤ q := by
        refine orZero_pyFloat_nonneg v ?_ q hf
        intro q' hq'
        exact hA q' (by simpa [rawGet, hraw] using hq')
      simpa [hf]
  | none =>
    simp only []
    cases hrev : (if rawGet raw.revenue = .vNone then none
        else ((rawGet raw.revenue).orZero).pyFloat) with
    | some q =>
      have hq : ((rawGet raw.revenue).orZero).pyFloat = some q := by
        by_cases hn : rawGet raw.revenue = .vNone
        · simp [hn] at hrev
        · simpa [hn] using hrev
      simpa [hrev] using orZero_pyFloat_nonneg _ hR q hq
    | none =>
      cases hp : ((rawGet raw.price).orZero).pyFloat with
      | none => simp [hrev, hp]
      | some pq =>
        cases hc : ((rawGet raw.count).orZero).pyInt with
        | none => simp [hrev, hp, hc]
        | some cn =>
          have hpq : 0 ≤ pq := orZero_pyFloat_nonneg _ hP pq hp
          have hcn : 0 ≤ cn := by
            by_cases ht : (rawGet raw.count).truthy
            · exact hC cn (by simpa [Value.orZero, ht] using hc)
            · simp [Value.orZero, ht, Value.pyInt] at hc
              omega
          have hcv : (0:ℚ) ≤ ((if cn = 0 then 1 else cn : ℤ) : ℚ) := by
            by_cases h0 : cn = 0 <;> simp [h0] <;> exact_mod_cast hcn
          simpa [hrev, hp, hc] using mul_nonneg hpq hcv

theorem claim_C3_amount_nonneg_witness :
    0 ≤ (fromRaw "id0" "t0" { amount := some (.vInt 5) } : LedgerEntry).amount := by
  refine claim_C3_amount_nonneg "id0" "t0" _ ?_ ?_ ?_ ?_
  · intro q h
    simp [rawGet, Value.pyFloat] at h
    linarith
  · intro q h
    simp [rawGet, Value.pyFloat] at h
  · intro q h
    simp [rawGet, Value.pyFloat] at h
  · intro n h
    simp [rawGet, Value.pyInt] at h

/-- C3 counterexample: a raw dict with a supplied numeric `amount = -1`
yields a negative derived amount, refuting "the resulting amount is
always greater than or equal to 0" for every raw dict. -/
theorem claim_C3_counterexample :
    ¬ (0 ≤ (fromRaw "id0" "t0" { amount := some (.vInt (-1)) } : LedgerEntry).amount) := by
  decide

/-- C4 (amended): round-tripping a built entry through `to_dict` and
`from_raw` preserves `quantity` exactly, preserves `direction` for the
in/out directions the program uses, and maps `amount` to its 2-decimal
rounding (so `amount` is preserved exactly iff it has at most two decimal
places).  The unamended claim is refuted by `claim_C4_counterexample`. -/
theorem claim_C4_round_trip (newId nowStr fid fnow : String) (a : BuildArgs)
    (hdir : a.direction = "in" ∨ a.direction = "out") :
    (fromRaw fid fnow (toDict (buildEntry newId nowStr a))).amount
        = pyRound2 (buildEntry newId nowStr a).amount ∧
      (fromRaw fid fnow (toDict (buildEntry newId nowStr a))).quantity
        = (buildEntry newId nowStr a).quantity ∧
      (fromRaw fid fnow (toDict (buildEntry newId nowStr a))).direction
        = (buildEntry newId nowStr a).direction := by
  set e := buildEntry newId nowStr a with he
  refine ⟨?_, ?_, ?_⟩
  · rw [fromRaw_amount]
    unfold getAmount
    by_cases h0 : pyRound2 e.amount = 0 <;>
      simp [toDict, Value.orZero, Value.truthy, Value.pyFloat, h0]
  · show getQuantity (toDict e) = e.quantity
    unfold getQuantity
    by_cases h0 : e.quantity = 0 <;>
      simp [toDict, Value.orZero, Value.truthy, Value.pyInt, h0]
  · show getDirection (toDict e) = e.direction
    have hd : e.direction = a.direction := rfl
    unfold getDirection
    rcases hdir with h | h <;>
      simp [toDict, rawGet, mkStr, Value.isStr, Value.getStr, hd, h]

theorem claim_C4_round_trip_witness :
    (fromRaw "f0" "n0" (toDict (buildEntry "i0" "t0"
        { transaction_type := TRANSACTION_LEGACY, actor := "a", actor_role := ROLE_ADMIN,
          amount := 3/2, quantity := 2 }))).amount
      = pyRound2 (buildEntry "i0" "t0"
        { transaction_type := TRANSACTION_LEGACY, actor := "a", actor_role := ROLE_ADMIN,
          amount := 3/2, quantity := 2 }).amount ∧
    (fromRaw "f0" "n0" (toDict (buildEntry "i0" "t0"
        { transaction_type := TRANSACTION_LEGACY, actor := "a", actor_role := ROLE_ADMIN,
          amount := 3/2, quantity := 2 }))).quantity
      = (buildEntry "i0" "t0"
        { transaction_type := TRANSACTION_LEGACY, actor := "a", actor_role := ROLE_ADMIN,
          amount := 3/2, quantity := 2 }).quantity ∧
    (fromRaw "f0" "n0" (toDict (buildEntry "i0" "t0"
        { transaction_type := TRANSACTION_LEGACY, actor := "a", actor_role := ROLE_ADMIN,
          amount := 3/2, quantity := 2 }))).direction
      = (buildEntry "i0" "t0"
        { transaction_type := TRANSACTION_LEGACY, actor := "a", actor_role := ROLE_ADMIN,
          amount := 3/2, quantity := 2 }).direction :=
  claim_C4_round_trip "i0" "t0" "f0" "n0" _ (Or.inl rfl)

/-- The concrete entry refuting the exact round-trip claim: built with
`amount = 0.125`. -/
def c4CounterEntry : LedgerEntry :=
  buildEntry "id1" "now1"
    { transaction_type := TRANSACTION_LEGACY, actor := "a", actor_role := ROLE_ADMIN,
      amount := 1/8, quantity := 1 }

/-- C4 counterexample: an entry built with amount `0.125` round-trips to
amount `0.12` (`to_dict` rounds to 2 decimals), so the round-tripped
amount does not equal the original amount. -/
theorem claim_C4_counterexample :
    (fromRaw "f0" "n0" (toDict c4CounterEntry)).amount = 3/25 ∧
      c4CounterEntry.amount = 1/8 ∧ ((3:ℚ)/25) ≠ ((1:ℚ)/8) := by
  have h8 : c4CounterEntry.amount = 1/8 := by norm_num [c4CounterEntry, buildEntry]
  have hr : pyRound2 ((1:ℚ)/8) = 3/25 := by norm_num [pyRound2, roundHalfEven]
  refine ⟨?_, h8, by norm_num⟩
  rw [fromRaw_amount]
  unfold getAmount
  norm_num [toDict, h8, hr, Value.orZero, Value.truthy, Value.pyFloat]

/-- C5 (amended): the §3 direction-derivation rule (default `out` for
`agent_purchase`, else `in`) is applied by `LedgerEntry.from_raw` when the
raw record carries no explicit in/out direction, while
`build_ledger_entry` itself simply uses its `direction` keyword, whose
Python default is `"in"` for every transaction type.  The unamended claim
is refuted by `claim_C5_counterexample`. -/
theorem claim_C5_direction_rule (fid now : String) (raw : Raw)
    (h1 : (rawGet raw.direction).isStr "in" = false)
    (h2 : (rawGet raw.direction).isStr "out" = false) :
    (fromRaw fid now raw).direction =
        (if (rawGet raw.transaction_type).isStr TRANSACTION_AGENT_PURCHASE
          then "out" else "in") ∧
      ∀ (newId nowStr : String) (a : BuildArgs),
        (buildEntry newId nowStr a).direction = a.direction := by
  constructor
  · show getDirection raw = _
    unfold getDirection
    simp [h1, h2]
  · intro newId nowStr a
    rfl

theorem claim_C5_direction_rule_witness :
    (fromRaw "id0" "t0"
        ({ transaction_type := some (mkStr TRANSACTION_AGENT_PURCHASE) } : Raw)).direction
      = (if (rawGet (some (mkStr TRANSACTION_AGENT_PURCHASE))).isStr
            TRANSACTION_AGENT_PURCHASE then "out" else "in") ∧
      ∀ (newId nowStr : String) (a : BuildArgs),
        (buildEntry newId nowStr a).direction = a.direction :=
  claim_C5_direction_rule "id0" "t0" _ rfl rfl

/-- C5 counterexample: a `build_ledger_entry` call with
`transaction_type = agent_purchase` and the direction keyword left at its
default produces direction `"in"`, not `"out"`. -/
theorem claim_C5_counterexample :
    (buildEntry "id1" "now1"
        { transaction_type := TRANSACTION_AGENT_PURCHASE, actor := "agentA",
          actor_role := ROLE_AGENT, amount := 100 }).direction = buildDirectionDefault ∧
      buildDirectionDefault ≠ "out" := by
  exact ⟨rfl, by decide⟩

/-- C8: the percent-change KPI: zero previous maps to 100 for positive
current and 0 otherwise; nonzero previous gives the relative change in
percent. -/
theorem claim_C8_pct_change (cur prev : ℚ) :
    (prev = 0 → pctChange cur prev = if 0 < cur then 100 else 0) ∧
      (prev ≠ 0 → pctChange cur prev = (cur - prev) / prev * 100) := by
  constructor
  · intro h
    simp [pctChange, h]
  · intro h
    simp [pctChange, h]

theorem claim_C8_pct_change_witness :
    pctChange 10 0 = 100 ∧ pctChange 0 0 = 0 ∧ pctChange 150 100 = 50 := by
  refine ⟨?_, ?_, ?_⟩
  · rw [(claim_C8_pct_change 10 0).1 rfl]
    norm_num
  · rw [(claim_C8_pct_change 0 0).1 rfl]
    norm_num
  · rw [(claim_C8_pct_change 150 100).2 (by norm_num)]
    norm_num

/-- C10: `to_dict` is total; the legacy `price` is the guarded division
(0 when `quantity = 0`), and the dict carries the canonical fields plus
the legacy mirrors `admin`, `role`, `count` and `revenue`. -/
theorem claim_C10_to_dict_total (e : LedgerEntry) :
    (toDict e).price = some (.vFloat (pyRound2
        (if e.quantity = 0 then 0 else e.amount / (e.quantity : ℚ)))) ∧
      (toDict e).admin = some (mkStr e.actor) ∧
      (toDict e).role = some (mkStr e.actor_role) ∧
      (toDict e).count = some (.vInt e.quantity) ∧
      (toDict e).revenue = some (.vFloat (pyRound2 e.amount)) ∧
      (toDict e).amount = some (.vFloat (pyRound2 e.amount)) ∧
      (toDict e).quantity = some (.vInt e.quantity) ∧
      (toDict e).actor = some (mkStr e.actor) ∧
      (toDict e).actor_role = some (mkStr e.actor_role) ∧
      (toDict e).transaction_type = some (mkStr e.transaction_type) ∧
      (toDict e).direction = some (mkStr e.direction) := by
  by_cases h0 : e.quantity = 0 <;>
    simp [toDict, h0]

theorem ite_eq_zero_self {α : Type} [Zero α] [DecidableEq α] (a : α) :
    (if a = 0 then (0:α) else a) = a := by
  split_ifs with h
  · exact h.symm
  · rfl

/-- C7 (amended): approving an agent application for `count` units at
unit price `price` appends exactly two ledger entries: an
`admin_to_agent_wholesale` entry (admin actor, direction in, agent
counterparty) and an `agent_purchase` entry (agent actor, direction out,
admin counterparty), each carrying quantity `count` and amount
`round(price*count, 2)` (which equals `price*count` whenever that product
has at most two decimal places).  The exact-amount reading of the claim
is refuted by `claim_C7_counterexample`. -/
theorem claim_C7_paired_wholesale (adminName agentName product : String)
    (price : ℚ) (count : ℤ) (id1 id2 nowStr : String) (records : List Raw) :
    approveApplicationLedger adminName agentName product price count id1 id2 nowStr records
      = records ++
        [buildLedgerEntry id1 nowStr
          { transaction_type := TRANSACTION_ADMIN_TO_AGENT, actor := adminName,
            actor_role := ROLE_ADMIN, amount := price * (count : ℚ), quantity := count,
            product := mkStr product, counterparty := mkStr agentName },
         buildLedgerEntry id2 nowStr
          { transaction_type := TRANSACTION_AGENT_PURCHASE, actor := agentName,
            actor_role := ROLE_AGENT, amount := price * (count : ℚ), quantity := count,
            product := mkStr product, counterparty := mkStr adminName,
            direction := "out" }] ∧
      (buildLedgerEntry id1 nowStr
          { transaction_type := TRANSACTION_ADMIN_TO_AGENT, actor := adminName,
            actor_role := ROLE_ADMIN, amount := price * (count : ℚ), quantity := count,
            product := mkStr product, counterparty := mkStr agentName }).amount
        = some (.vFloat (pyRound2 (price * (count : ℚ)))) ∧
      (buildLedgerEntry id1 nowStr
          { transaction_type := TRANSACTION_ADMIN_TO_AGENT, actor := adminName,
            actor_role := ROLE_ADMIN, amount := price * (count : ℚ), quantity := count,
            product := mkStr product, counterparty := mkStr agentName }).quantity
        = some (.vInt count) ∧
      (buildLedgerEntry id1 nowStr
          { transaction_type := TRANSACTION_ADMIN_TO_AGENT, actor := adminName,
            actor_role := ROLE_ADMIN, amount := price * (count : ℚ), quantity := count,
            product := mkStr product, counterparty := mkStr agentName }).direction
        = some (mkStr "in") ∧
      (buildLedgerEntry id1 nowStr
          { transaction_type := TRANSACTION_ADMIN_TO_AGENT, actor := adminName,
            actor_role := ROLE_ADMIN, amount := price * (count : ℚ), quantity := count,
            product := mkStr product, counterparty := mkStr agentName }).actor
        = some (mkStr adminName) ∧
      (buildLedgerEntry id1 nowStr
          { transaction_type := TRANSACTION_ADMIN_TO_AGENT, actor := adminName,
            actor_role := ROLE_ADMIN, amount := price * (count : ℚ), quantity := count,
            product := mkStr product, counterparty := mkStr agentName }).counterparty
        = some (mkStr agentName) ∧
      (buildLedgerEntry id1 nowStr
          { transaction_type := TRANSACTION_ADMIN_TO_AGENT, actor := adminName,
            actor_role := ROLE_ADMIN, amount := price * (count : ℚ), quantity := count,
            product := mkStr product, counterparty := mkStr agentName }).transaction_type
        = some (mkStr TRANSACTION_ADMIN_TO_AGENT) ∧
      (buildLedgerEntry id2 nowStr
          { transaction_type := TRANSACTION_AGENT_PURCHASE, actor := agentName,
            actor_role := ROLE_AGENT, amount := price * (count : ℚ), quantity := count,
            product := mkStr product, counterparty := mkStr adminName,
            direction := "out" }).amount
        = some (.vFloat (pyRound2 (price * (count : ℚ)))) ∧
      (buildLedgerEntry id2 nowStr
          { transaction_type := TRANSACTION_AGENT_PURCHASE, actor := agentName,
            actor_role := ROLE_AGENT, amount := price * (count : ℚ), quantity := count,
            product := mkStr product, counterparty := mkStr adminName,
            direction := "out" }).quantity
        = some (.vInt count) ∧
      (buildLedgerEntry id2 nowStr
          { transaction_type := TRANSACTION_AGENT_PURCHASE, actor := agentName,
            actor_role := ROLE_AGENT, amount := price * (count : ℚ), quantity := count,
            product := mkStr product, counterparty := mkStr adminName,
            direction := "out" }).direction
        = some (mkStr "out") ∧
      (buildLedgerEntry id2 nowStr
          { transaction_type := TRANSACTION_AGENT_PURCHASE, actor := agentName,
            actor_role := ROLE_AGENT, amount := price * (count : ℚ), quantity := count,
            product := mkStr product, counterparty := mkStr adminName,
            direction := "out" }).actor
        = some (mkStr agentName) ∧
      (buildLedgerEntry id2 nowStr
          { transaction_type := TRANSACTION_AGENT_PURCHASE, actor := agentName,
            actor_role := ROLE_AGENT, amount := price * (count : ℚ), quantity := count,
            product := mkStr product, counterparty := mkStr adminName,
            direction := "out" }).counterparty
        = some (mkStr adminName) ∧
      (buildLedgerEntry id2 nowStr
          { transaction_type := TRANSACTION_AGENT_PURCHASE, actor := agentName,
            actor_role := ROLE_AGENT, amount := price * (count : ℚ), quantity := count,
            product := mkStr product, counterparty := mkStr adminName,
            direction := "out" }).transaction_type
        = some (mkStr TRANSACTION_AGENT_PURCHASE) := by
  refine ⟨?_, ?_, ?_, ?_, ?_, ?_, ?_, ?_, ?_, ?_, ?_, ?_, ?_⟩
  · simp [approveApplicationLedger, recordTransaction]
  all_goals
    simp [buildLedgerEntry, buildEntry, toDict, ite_eq_zero_self, buildDirectionDefault,
      -mul_eq_zero]

/-- C7 counterexample: a wholesale of 1 unit at price `0.125` is recorded
with dict amount `0.12` (2-decimal rounding), not `N×P = 0.125`. -/
theorem claim_C7_counterexample :
    ((approveApplicationLedger "adm" "ag" "prod" (1/8) 1 "i1" "i2" "t0" []).getD 0
        ({} : Raw)).amount = some (.vFloat (3/25)) ∧
      ((3:ℚ)/25) ≠ ((1:ℚ)/8) * ((1:ℤ) : ℚ) := by
  have hr : pyRound2 ((1:ℚ)/8) = 3/25 := by
    norm_num [pyRound2, roundHalfEven]
  refine ⟨?_, by norm_num⟩
  norm_num [approveApplicationLedger, recordTransaction, buildLedgerEntry, buildEntry,
    toDict, hr]

-- ---- C1: distributor mark-unsold -----------------------------------------

/-- A sold-by-distribution inventory record owned by distributor
`dist1`, the failing input of claim C1. -/
def c1FailingRecord : Record :=
  { owner := some "dist1"
    sold_at := some "2024-01-01 00:00:00"
    forsale := some (.vBool false)
    accounting := some
      { owner := some "dist1"
        manager := some "dist1"
        status := some ACCOUNT_STATUS_SOLD
        sale_type := some SALE_TYPE_DISTRIBUTION
        sold_at := some "2024-01-01 00:00:00" } }

/-- C1 (code bug): the distributor mark-unsold correction moves the
status to `distributor_stock` but leaves both `sold_at` and `sale_type`
set, because `update_account_state` treats its `sale_type=None` and
`sold_at=None` arguments as "do not change" rather than "clear".  The
resulting record has `sold_at` set while `status = distributor_stock`,
violating the claimed invariant. -/
theorem claim_C1_mark_unsold_keeps_sold_at :
    (distributorMarkUnsoldRecord "dist1" c1FailingRecord).2 = true ∧
      (acctOf (distributorMarkUnsoldRecord "dist1" c1FailingRecord).1).status
        = some ACCOUNT_STATUS_DISTRIBUTOR_STOCK ∧
      (acctOf (distributorMarkUnsoldRecord "dist1" c1FailingRecord).1).sold_at
        = some "2024-01-01 00:00:00" ∧
      (acctOf (distributorMarkUnsoldRecord "dist1" c1FailingRecord).1).sale_type
        = some SALE_TYPE_DISTRIBUTION ∧
      (distributorMarkUnsoldRecord "dist1" c1FailingRecord).1.sold_at
        = some "2024-01-01 00:00:00" := by
  refine ⟨rfl, by decide, by decide, by decide, by decide⟩

-- ---- Account-state helper lemmas -----------------------------------------

/-- The status coercion applied by `ensure_defaults`. -/
def coerceStatus (t : Option String) : Option String :=
  if t ∈ [some ACCOUNT_STATUS_AGENT_STOCK, some ACCOUNT_STATUS_DISTRIBUTOR_STOCK,
      some ACCOUNT_STATUS_SOLD] then t
  else some ACCOUNT_STATUS_AGENT_STOCK

/-- The sale-type coercion applied by `ensure_defaults`. -/
def coerceSale (t : Option String) : Option String :=
  if t ∈ [some SALE_TYPE_DIRECT, some SALE_TYPE_DISTRIBUTION, none] then t else none

@[simp] theorem ensureDefaults_owner (st : AccountState) :
    (ensureDefaults st).owner = st.owner := by
  simp only [ensureDefaults]
  split_ifs <;> rfl

@[simp] theorem ensureDefaults_sold_at (st : AccountState) :
    (ensureDefaults st).sold_at = st.sold_at := by
  simp only [ensureDefaults]
  split_ifs <;> rfl

@[simp] theorem ensureDefaults_status (st : AccountState) :
    (ensureDefaults st).status = coerceStatus st.status := by
  simp only [ensureDefaults, coerceStatus]
  split_ifs <;> rfl

@[simp] theorem ensureDefaults_sale_type (st : AccountState) :
    (ensureDefaults st).sale_type = coerceSale st.sale_type := by
  simp only [ensureDefaults, coerceSale]
  split_ifs <;> rfl

@[simp] theorem ensureDefaults_manager (st : AccountState) :
    (ensureDefaults st).manager =
      (if strTruthyO st.manager then st.manager else st.owner) := by
  simp only [ensureDefaults]
  split_ifs <;> rfl

@[simp] theorem statusNoneFix_owner (st : AccountState) :
    (statusNoneFix st).owner = st.owner := by
  simp only [statusNoneFix]
  split_ifs <;> rfl

@[simp] theorem statusNoneFix_manager (st : AccountState) :
    (statusNoneFix st).manager = st.manager := by
  simp only [statusNoneFix]
  split_ifs <;> rfl

@[simp] theorem statusNoneFix_sale_type (st : AccountState) :
    (statusNoneFix st).sale_type = st.sale_type := by
  simp only [statusNoneFix]
  split_ifs <;> rfl

@[simp] theorem statusNoneFix_sold_at (st : AccountState) :
    (statusNoneFix st).sold_at = st.sold_at := by
  simp only [statusNoneFix]
  split_ifs <;> rfl

@[simp] theorem statusNoneFix_status (st : AccountState) :
    (statusNoneFix st).status =
      (if st.status = none then some ACCOUNT_STATUS_AGENT_STOCK else st.status) := by
  simp only [statusNoneFix]
  split_ifs <;> rfl

@[simp] theorem saleTypeInfer_owner (d : Record) (st : AccountState) :
    (saleTypeInfer d st).owner = st.owner := by
  simp only [saleTypeInfer]
  split_ifs <;> rfl

@[simp] theorem saleTypeInfer_manager (d : Record) (st : AccountState) :
    (saleTypeInfer d st).manager = st.manager := by
  simp only [saleTypeInfer]
  split_ifs <;> rfl

@[simp] theorem saleTypeInfer_status (d : Record) (st : AccountState) :
    (saleTypeInfer d st).status = st.status := by
  simp only [saleTypeInfer]
  split_ifs <;> rfl

@[simp] theorem saleTypeInfer_sold_at (d : Record) (st : AccountState) :
    (saleTypeInfer d st).sold_at = st.sold_at := by
  simp only [saleTypeInfer]
  split_ifs <;> rfl

/-- The legacy inference applied to a record's own `sale_type` slot. -/
def inferSale (d : Record) : Option String :=
  if d.sale_type ∈ [some SALE_TYPE_DIRECT, some "总部直销", some "direct"] then
    some SALE_TYPE_DIRECT
  else if d.sale_type ∈ [some SALE_TYPE_DISTRIBUTION, some "分销售出",
      some "distribution"] then some SALE_TYPE_DISTRIBUTION
  else none

@[simp] theorem saleTypeInfer_sale_type (d : Record) (st : AccountState) :
    (saleTypeInfer d st).sale_type =
      (if strTruthyO st.sale_type then st.sale_type
        else if (inferSale d).isSome then inferSale d else st.sale_type) := by
  simp only [saleTypeInfer, inferSale]
  split_ifs <;> simp_all

@[simp] theorem statusFallback_owner (d : Record) (st : AccountState) :
    (statusFallback d st).owner = st.owner := by
  simp only [statusFallback]
  split_ifs <;> rfl

@[simp] theorem statusFallback_manager (d : Record) (st : AccountState) :
    (statusFallback d st).manager = st.manager := by
  simp only [statusFallback]
  split_ifs <;> rfl

@[simp] theorem statusFallback_sale_type (d : Record) (st : AccountState) :
    (statusFallback d st).sale_type = st.sale_type := by
  simp only [statusFallback]
  split_ifs <;> rfl

@[simp] theorem statusFallback_sold_at (d : Record) (st : AccountState) :
    (statusFallback d st).sold_at = st.sold_at := by
  simp only [statusFallback]
  split_ifs <;> rfl

theorem statusFallback_of_truthy (d : Record) (st : AccountState)
    (h : strTruthyO st.status = true) : statusFallback d st = st := by
  simp [statusFallback, h]

@[simp] theorem coerceStatus_ne_none (t : Option String) : coerceStatus t ≠ none := by
  unfold coerceStatus
  split_ifs with h
  · rcases t with _ | s
    · simp at h
    · simp
  · simp

@[simp] theorem coerceStatus_truthy (t : Option String) :
    strTruthyO (coerceStatus t) = true := by
  unfold coerceStatus
  split_ifs with h
  · simp only [List.mem_cons, List.mem_singleton, List.not_mem_nil, or_false] at h
    rcases h with h | h | h <;> subst h <;> decide
  · decide

@[simp] theorem coerceStatus_idem (t : Option String) :
    coerceStatus (coerceStatus t) = coerceStatus t := by
  unfold coerceStatus
  split_ifs with h h2 <;> simp_all

@[simp] theorem coerceSale_idem (t : Option String) :
    coerceSale (coerceSale t) = coerceSale t := by
  unfold coerceSale
  split_ifs with h h2 <;> simp_all

theorem inferSale_valid (d : Record) :
    inferSale d = none ∨ inferSale d = some SALE_TYPE_DIRECT ∨
      inferSale d = some SALE_TYPE_DISTRIBUTION := by
  unfold inferSale
  split_ifs <;> simp

@[simp] theorem coerceSale_inferSale (d : Record) :
    coerceSale (inferSale d) = inferSale d := by
  rcases inferSale_valid d with h | h | h <;> rw [h] <;> decide

-- ---- Closed forms of `resolveState` and `finalState` ---------------------

/-- The resolved `owner` before any update argument is applied. -/
def resolvedOwner (d : Record) : Option String := pyOrS (acctOf d).owner d.owner

/-- The resolved `sold_at` before any update argument is applied. -/
def resolvedSoldAt (d : Record) : Option String := pyOrS (acctOf d).sold_at d.sold_at

/-- The resolved `status` before any update argument is applied. -/
def resolvedStatus (d : Record) : Option String :=
  coerceStatus (pyOrS (acctOf d).status d.status)

/-- The raw `manager` or-chain of `ensure_accounting`. -/
def resolvedManagerRaw (d : Record) : Option String :=
  pyOrS (acctOf d).manager
    (pyOrS d.manager (pyOrS (d.assigned_distributor.getD none) d.owner))

/-- The resolved `manager` before any update argument is applied. -/
def resolvedManager (d : Record) : Option String :=
  if strTruthyO (resolvedManagerRaw d) then resolvedManagerRaw d else resolvedOwner d

/-- The resolved `sale_type` before any update argument is applied. -/
def resolvedSale (d : Record) : Option String :=
  let t := coerceSale (pyOrS (acctOf d).sale_type d.sale_type)
  if strTruthyO t then t else inferSale d

theorem coerceSale_eq_none_of_falsy (t : Option String)
    (h : strTruthyO (coerceSale t) = false) : coerceSale t = none := by
  unfold coerceSale at h ⊢
  split_ifs at h ⊢ with h2
  · simp only [List.mem_cons, List.mem_singleton, List.not_mem_nil, or_false] at h2
    rcases h2 with h2 | h2 | h2 <;> subst h2
    · revert h
      decide
    · revert h
      decide
    · rfl
  · rfl

theorem coerceSale_resolvedSale (d : Record) :
    coerceSale (resolvedSale d) = resolvedSale d := by
  unfold resolvedSale
  by_cases ht : strTruthyO (coerceSale (pyOrS (acctOf d).sale_type d.sale_type)) = true
  · simp [ht]
  · simp [ht, coerceSale_inferSale]

theorem resolveState_owner (d : Record) : (resolveState d).owner = resolvedOwner d := by
  simp [resolveState, resolveState0, resolvedOwner]

theorem resolveState_sold_at (d : Record) :
    (resolveState d).sold_at = resolvedSoldAt d := by
  simp [resolveState, resolveState0, resolvedSoldAt]

theorem resolveState_status (d : Record) :
    (resolveState d).status = resolvedStatus d := by
  have h1 : (saleTypeInfer d (statusNoneFix (ensureDefaults (resolveState0 d)))).status
      = resolvedStatus d := by
    simp [resolvedStatus, resolveState0]
  rw [resolveState, statusFallback_of_truthy _ _ (by rw [h1]; simp [resolvedStatus])]
  simp [h1, resolvedStatus, resolveState0]

theorem resolveState_sale_type (d : Record) :
    (resolveState d).sale_type = resolvedSale d := by
  have h1 : (saleTypeInfer d (statusNoneFix (ensureDefaults (resolveState0 d)))).status
      = resolvedStatus d := by
    simp [resolvedStatus, resolveState0]
  rw [resolveState, statusFallback_of_truthy _ _ (by rw [h1]; simp [resolvedStatus])]
  unfold resolvedSale
  by_cases ht : strTruthyO (coerceSale (pyOrS (acctOf d).sale_type d.sale_type)) = true
  · simp [resolveState0, ht]
  · rcases hi : inferSale d with _ | v
    · simp only [resolveState0, ensureDefaults_sale_type, saleTypeInfer_sale_type,
        statusNoneFix_sale_type, ht, if_false, hi, Option.isSome_none, Bool.false_eq_true]
      simp [coerceSale_eq_none_of_falsy _ (by simpa using ht)]
      decide
    · have hv : coerceSale (some v) = some v := by
        rw [← hi]
        exact coerceSale_inferSale d
      simp [resolveState0, ht, hi, hv]


theorem resolveState_manager (d : Record) :
    (resolveState d).manager = resolvedManager d := by
  unfold resolvedManager resolvedManagerRaw resolvedOwner
  by_cases h : strTruthyO (pyOrS (acctOf d).manager
      (pyOrS d.manager (pyOrS (d.assigned_distributor.getD none) d.owner))) = true <;>
    simp [resolveState, resolveState0, h]

theorem finalState_owner (d : Record) (a : UpdateArgs) :
    (finalState d a).owner = (if a.owner.isSome then a.owner else resolvedOwner d) := by
  simp [finalState, applyArgs, resolveState_owner]

theorem finalState_sold_at (d : Record) (a : UpdateArgs) :
    (finalState d a).sold_at =
      (if a.sold_at.isSome then a.sold_at else resolvedSoldAt d) := by
  simp [finalState, applyArgs, resolveState_sold_at]

theorem finalState_status (d : Record) (a : UpdateArgs) :
    (finalState d a).status =
      coerceStatus (if a.status.isSome then a.status else resolvedStatus d) := by
  simp [finalState, applyArgs, resolveState_status]

theorem finalState_sale_type (d : Record) (a : UpdateArgs) :
    (finalState d a).sale_type =
      coerceSale (if a.sale_type.isSome then a.sale_type else resolvedSale d) := by
  simp [finalState, applyArgs, resolveState_sale_type]

theorem finalState_manager (d : Record) (a : UpdateArgs) :
    (finalState d a).manager =
      (if strTruthyO (if a.manager.isSome then a.manager else resolvedManager d) then
        (if a.manager.isSome then a.manager else resolvedManager d)
      else (if a.owner.isSome then a.owner else resolvedOwner d)) := by
  simp [finalState, applyArgs, resolveState_manager, resolveState_owner]

-- ---- `_sync_legacy_flags` closed forms -----------------------------------

@[simp] theorem syncLegacyFlags_status (x : Record) (st : AccountState) :
    (syncLegacyFlags x st).status = x.status := by
  simp only [syncLegacyFlags]
  split_ifs <;> rfl

@[simp] theorem syncLegacyFlags_source (x : Record) (st : AccountState) :
    (syncLegacyFlags x st).source = x.source := by
  simp only [syncLegacyFlags]
  split_ifs <;> rfl

@[simp] theorem syncLegacyFlags_roles (x : Record) (st : AccountState) :
    (syncLegacyFlags x st).roles = x.roles := by
  simp only [syncLegacyFlags]
  split_ifs <;> rfl

@[simp] theorem syncLegacyFlags_is_admin (x : Record) (st : AccountState) :
    (syncLegacyFlags x st).is_admin = x.is_admin := by
  simp only [syncLegacyFlags]
  split_ifs <;> rfl

@[simp] theorem syncLegacyFlags_is_agent (x : Record) (st : AccountState) :
    (syncLegacyFlags x st).is_agent = x.is_agent := by
  simp only [syncLegacyFlags]
  split_ifs <;> rfl

@[simp] theorem syncLegacyFlags_is_distributor (x : Record) (st : AccountState) :
    (syncLegacyFlags x st).is_distributor = x.is_distributor := by
  simp only [syncLegacyFlags]
  split_ifs <;> rfl

@[simp] theorem syncLegacyFlags_accounting (x : Record) (st : AccountState) :
    (syncLegacyFlags x st).accounting = x.accounting := by
  simp only [syncLegacyFlags]
  split_ifs <;> rfl

@[simp] theorem writeAcct_owner (x : Record) (st : AccountState) :
    (writeAcct x st).owner = x.owner := rfl

@[simp] theorem writeAcct_manager (x : Record) (st : AccountState) :
    (writeAcct x st).manager = x.manager := rfl

@[simp] theorem writeAcct_assigned_distributor (x : Record) (st : AccountState) :
    (writeAcct x st).assigned_distributor = x.assigned_distributor := rfl

@[simp] theorem writeAcct_status (x : Record) (st : AccountState) :
    (writeAcct x st).status = x.status := rfl

@[simp] theorem writeAcct_sale_type (x : Record) (st : AccountState) :
    (writeAcct x st).sale_type = x.sale_type := rfl

@[simp] theorem writeAcct_sold_at (x : Record) (st : AccountState) :
    (writeAcct x st).sold_at = x.sold_at := rfl

@[simp] theorem writeAcct_forsale (x : Record) (st : AccountState) :
    (writeAcct x st).forsale = x.forsale := rfl

@[simp] theorem writeAcct_distribution_tag (x : Record) (st : AccountState) :
    (writeAcct x st).distribution_tag = x.distribution_tag := rfl

@[simp] theorem writeAcct_distributor_forsale (x : Record) (st : AccountState) :
    (writeAcct x st).distributor_forsale = x.distributor_forsale := rfl

@[simp] theorem writeAcct_distributor_sold (x : Record) (st : AccountState) :
    (writeAcct x st).distributor_sold = x.distributor_sold := rfl

@[simp] theorem writeAcct_source (x : Record) (st : AccountState) :
    (writeAcct x st).source = x.source := rfl

@[simp] theorem writeAcct_roles (x : Record) (st : AccountState) :
    (writeAcct x st).roles = x.roles := rfl

@[simp] theorem writeAcct_is_admin (x : Record) (st : AccountState) :
    (writeAcct x st).is_admin = x.is_admin := rfl

@[simp] theorem writeAcct_is_agent (x : Record) (st : AccountState) :
    (writeAcct x st).is_agent = x.is_agent := rfl

@[simp] theorem writeAcct_is_distributor (x : Record) (st : AccountState) :
    (writeAcct x st).is_distributor = x.is_distributor := rfl

@[simp] theorem writeAcct_accounting (x : Record) (st : AccountState) :
    (writeAcct x st).accounting = some st.toAcct := rfl

@[simp] theorem hasBusinessRole_writeAcct (x : Record) (st : AccountState) :
    hasBusinessRole (writeAcct x st) = hasBusinessRole x := rfl

@[simp] theorem hasBusinessRole_sync (x : Record) (st : AccountState) :
    hasBusinessRole (syncLegacyFlags x st) = hasBusinessRole x := by
  unfold hasBusinessRole
  rw [syncLegacyFlags_roles]

theorem sync_business (x : Record) (st : AccountState)
    (h : hasBusinessRole x = true) : syncLegacyFlags x st = x := by
  simp [syncLegacyFlags, h]

/-- The legacy `sale_type` string written back for a canonical sale
type. -/
def mirrorSaleField (t : Option String) : Option String :=
  if t = some SALE_TYPE_DIRECT then some "总部直销"
  else if t = some SALE_TYPE_DISTRIBUTION then some "分销售出"
  else none

@[simp] theorem mirrorSaleField_direct :
    mirrorSaleField (some SALE_TYPE_DIRECT) = some "总部直销" := by decide

@[simp] theorem mirrorSaleField_distribution :
    mirrorSaleField (some SALE_TYPE_DISTRIBUTION) = some "分销售出" := by decide

@[simp] theorem mirrorSaleField_none : mirrorSaleField none = none := by decide

theorem sync_agent_stock (x : Record) (st : AccountState)
    (h : hasBusinessRole x = false)
    (hst : st.status = some ACCOUNT_STATUS_AGENT_STOCK) :
    syncLegacyFlags x st = { x with
      owner := st.owner
      manager := st.manager
      forsale := some (.vBool true)
      distribution_tag := some (.vBool false)
      distributor_forsale := some (.vBool false)
      distributor_sold := some (.vBool false)
      assigned_distributor := none
      sale_type := mirrorSaleField st.sale_type
      sold_at := if strTruthyO st.sold_at then st.sold_at else x.sold_at } := by
  simp only [syncLegacyFlags, mirrorSaleField, h, Bool.false_eq_true, if_false, hst]
  split_ifs <;> simp_all

theorem sync_distributor_stock (x : Record) (st : AccountState)
    (h : hasBusinessRole x = false)
    (hst : st.status = some ACCOUNT_STATUS_DISTRIBUTOR_STOCK) :
    syncLegacyFlags x st = { x with
      owner := st.owner
      manager := st.manager
      forsale := some (.vBool false)
      distribution_tag := some (.vBool true)
      distributor_forsale := some (.vBool true)
      distributor_sold := some (.vBool false)
      assigned_distributor := some st.manager
      sale_type := mirrorSaleField st.sale_type
      sold_at := if strTruthyO st.sold_at then st.sold_at else x.sold_at } := by
  simp only [syncLegacyFlags, mirrorSaleField, h, Bool.false_eq_true, if_false, hst,
    ACCOUNT_STATUS_AGENT_STOCK, ACCOUNT_STATUS_DISTRIBUTOR_STOCK]
  split_ifs <;> simp_all

theorem sync_sold_like (x : Record) (st : AccountState)
    (h : hasBusinessRole x = false)
    (h1 : st.status ≠ some ACCOUNT_STATUS_AGENT_STOCK)
    (h2 : st.status ≠ some ACCOUNT_STATUS_DISTRIBUTOR_STOCK) :
    syncLegacyFlags x st = { x with
      owner := st.owner
      manager := st.manager
      forsale := some (.vBool false)
      distribution_tag := some (.vBool (strTruthyO st.manager && st.manager != st.owner))
      distributor_forsale := some (.vBool false)
      distributor_sold := some (.vBool (st.sale_type == some SALE_TYPE_DISTRIBUTION))
      assigned_distributor :=
        if strTruthyO st.manager && st.manager != st.owner then some st.manager else none
      sale_type := mirrorSaleField st.sale_type
      sold_at := if strTruthyO st.sold_at then st.sold_at else x.sold_at } := by
  simp only [syncLegacyFlags, mirrorSaleField, h, Bool.false_eq_true, if_false,
    if_neg h1, if_neg h2]
  split_ifs <;> simp_all

theorem updateAccountState_fst (d : Record) (a : UpdateArgs)
    (h : isInventoryRecord d = true) :
    (updateAccountState d a).1 = finalState d a := by
  simp [updateAccountState, h]

theorem updateAccountState_snd (d : Record) (a : UpdateArgs)
    (h : isInventoryRecord d = true) :
    (updateAccountState d a).2 =
      syncLegacyFlags (writeAcct (ensureAccounting d).2 (finalState d a))
        (finalState d a) := by
  simp [updateAccountState, h]

theorem strTruthyO_some_of_ne (m : String) (h : m ≠ "") :
    strTruthyO (some m) = true := by
  simp only [strTruthyO, Bool.not_eq_true']
  exact Bool.eq_false_iff.mpr (fun hc => h ((String.isEmpty_iff m).mp hc))

-- ---- C9: the legacy status fallback of ensure_accounting is dead --------

/-- C9: the legacy-flag status fallback in `ensure_accounting` is
unreachable: for every record, after the first `ensure_defaults` the
state's status is one of the three valid constants (hence truthy), so the
`if not state.status` fallback is the identity; consequently every record
whose status sources are not a recognised status — even one with
`distributor_forsale` true or `forsale` false — resolves to
`agent_stock`. -/
theorem claim_C9_status_fallback_unreachable (d e : Record)
    (h : pyOrS (acctOf d).status d.status ∉
      [some ACCOUNT_STATUS_AGENT_STOCK, some ACCOUNT_STATUS_DISTRIBUTOR_STOCK,
        some ACCOUNT_STATUS_SOLD]) :
    statusFallback e (saleTypeInfer e (statusNoneFix (ensureDefaults (resolveState0 e))))
        = saleTypeInfer e (statusNoneFix (ensureDefaults (resolveState0 e))) ∧
      (ensureAccounting d).1.status = some ACCOUNT_STATUS_AGENT_STOCK := by
  constructor
  · apply statusFallback_of_truthy
    simp [resolveState0]
  · show (resolveState d).status = _
    rw [resolveState_status]
    unfold resolvedStatus coerceStatus
    rw [if_neg h]

/-- A record with no recognised status whose legacy flags would, if the
fallback were reachable, suggest `distributor_stock`. -/
def c9WitnessRecord : Record :=
  { status := some "bogus"
    forsale := some (.vBool false)
    distributor_forsale := some (.vBool true) }

theorem claim_C9_status_fallback_unreachable_witness :
    statusFallback c9WitnessRecord
        (saleTypeInfer c9WitnessRecord
          (statusNoneFix (ensureDefaults (resolveState0 c9WitnessRecord))))
      = saleTypeInfer c9WitnessRecord
          (statusNoneFix (ensureDefaults (resolveState0 c9WitnessRecord))) ∧
    (ensureAccounting c9WitnessRecord).1.status = some ACCOUNT_STATUS_AGENT_STOCK :=
  claim_C9_status_fallback_unreachable c9WitnessRecord c9WitnessRecord (by decide)

-- ---- C2: the legacy mirror table ----------------------------------------

/-- C2: after `update_account_state` with a valid
(status, sale_type, owner, manager) combination on a non-business
inventory record, the legacy mirror fields match the mapping table of
spec section 4.2 exactly, and the localized `sale_type` string mirror is
written (or removed when the canonical sale type is absent). -/
theorem claim_C2_mirror_table (d : Record) (o m s : String) (t dt : Option String)
    (hinv : isInventoryRecord d = true) (hbus : hasBusinessRole d = false)
    (ho : o ≠ "") (hm : m ≠ "")
    (hs : s = ACCOUNT_STATUS_AGENT_STOCK ∨ s = ACCOUNT_STATUS_DISTRIBUTOR_STOCK ∨
      s = ACCOUNT_STATUS_SOLD) :
    (updateAccountState d ⟨some o, some m, some s, t, dt⟩).1.owner = some o ∧
    (updateAccountState d ⟨some o, some m, some s, t, dt⟩).1.manager = some m ∧
    (updateAccountState d ⟨some o, some m, some s, t, dt⟩).1.status = some s ∧
    (updateAccountState d ⟨some o, some m, some s, t, dt⟩).2.owner = some o ∧
    (updateAccountState d ⟨some o, some m, some s, t, dt⟩).2.manager = some m ∧
    (s = ACCOUNT_STATUS_AGENT_STOCK →
      (updateAccountState d ⟨some o, some m, some s, t, dt⟩).2.forsale
          = some (.vBool true) ∧
        (updateAccountState d ⟨some o, some m, some s, t, dt⟩).2.distribution_tag
          = some (.vBool false) ∧
        (updateAccountState d ⟨some o, some m, some s, t, dt⟩).2.distributor_forsale
          = some (.vBool false) ∧
        (updateAccountState d ⟨some o, some m, some s, t, dt⟩).2.distributor_sold
          = some (.vBool false) ∧
        (updateAccountState d ⟨some o, some m, some s, t, dt⟩).2.assigned_distributor
          = none) ∧
    (s = ACCOUNT_STATUS_DISTRIBUTOR_STOCK →
      (updateAccountState d ⟨some o, some m, some s, t, dt⟩).2.forsale
          = some (.vBool false) ∧
        (updateAccountState d ⟨some o, some m, some s, t, dt⟩).2.distribution_tag
          = some (.vBool true) ∧
        (updateAccountState d ⟨some o, some m, some s, t, dt⟩).2.distributor_forsale
          = some (.vBool true) ∧
        (updateAccountState d ⟨some o, some m, some s, t, dt⟩).2.distributor_sold
          = some (.vBool false) ∧
        (updateAccountState d ⟨some o, some m, some s, t, dt⟩).2.assigned_distributor
          = some (some m)) ∧
    (s = ACCOUNT_STATUS_SOLD →
      (updateAccountState d ⟨some o, some m, some s, t, dt⟩).2.forsale
          = some (.vBool false) ∧
        (updateAccountState d ⟨some o, some m, some s, t, dt⟩).2.distribution_tag
          = some (.vBool (decide (m ≠ o))) ∧
        (updateAccountState d ⟨some o, some m, some s, t, dt⟩).2.distributor_forsale
          = some (.vBool false) ∧
        (updateAccountState d ⟨some o, some m, some s, t, dt⟩).2.distributor_sold
          = some (.vBool ((updateAccountState d ⟨some o, some m, some s, t, dt⟩).1.sale_type
              == some SALE_TYPE_DISTRIBUTION)) ∧
        (updateAccountState d ⟨some o, some m, some s, t, dt⟩).2.assigned_distributor
          = (if m = o then none else some (some m))) ∧
    ((updateAccountState d ⟨some o, some m, some s, t, dt⟩).1.sale_type
        = some SALE_TYPE_DIRECT →
      (updateAccountState d ⟨some o, some m, some s, t, dt⟩).2.sale_type
        = some "总部直销") ∧
    ((updateAccountState d ⟨some o, some m, some s, t, dt⟩).1.sale_type
        = some SALE_TYPE_DISTRIBUTION →
      (updateAccountState d ⟨some o, some m, some s, t, dt⟩).2.sale_type
        = some "分销售出") ∧
    ((updateAccountState d ⟨some o, some m, some s, t, dt⟩).1.sale_type = none →
      (updateAccountState d ⟨some o, some m, some s, t, dt⟩).2.sale_type = none) := by
  set a : UpdateArgs := ⟨some o, some m, some s, t, dt⟩ with ha
  have hmem : some s ∈ [some ACCOUNT_STATUS_AGENT_STOCK,
      some ACCOUNT_STATUS_DISTRIBUTOR_STOCK, some ACCOUNT_STATUS_SOLD] := by
    rcases hs with h | h | h <;> simp [h]
  have hso : (finalState d a).owner = some o := by
    simp [finalState_owner, ha]
  have hsm : (finalState d a).manager = some m := by
    rw [finalState_manager]
    simp [ha, strTruthyO_some_of_ne m hm]
  have hss : (finalState d a).status = some s := by
    rw [finalState_status]
    simp only [ha]
    unfold coerceStatus
    simp [hmem]
  have hb2 : hasBusinessRole (writeAcct (ensureAccounting d).2 (finalState d a)) = false := by
    simp [ensureAccounting, hbus]
  rw [updateAccountState_fst d a hinv, updateAccountState_snd d a hinv]
  refine ⟨hso, hsm, hss, ?_⟩
  rcases hs with h | h | h
  · rw [sync_agent_stock _ _ hb2 (by rw [hss, h])]
    subst h
    refine ⟨hso, hsm, fun _ => ⟨rfl, rfl, rfl, rfl, rfl⟩,
      fun hc => absurd hc (by decide), fun hc => absurd hc (by decide), ?_, ?_, ?_⟩
    · intro hd
      simp [hd]
    · intro hd
      simp [hd]
    · intro hd
      simp [hd]
  · rw [sync_distributor_stock _ _ hb2 (by rw [hss, h])]
    subst h
    refine ⟨hso, hsm, fun hc => absurd hc (by decide),
      fun _ => ⟨rfl, rfl, rfl, rfl, by simp [hsm]⟩,
      fun hc => absurd hc (by decide), ?_, ?_, ?_⟩
    · intro hd
      simp [hd]
    · intro hd
      simp [hd]
    · intro hd
      simp [hd]
  · rw [sync_sold_like _ _ hb2 (by rw [hss, h]; decide) (by rw [hss, h]; decide)]
    subst h
    refine ⟨hso, hsm, fun hc => absurd hc (by decide), fun hc => absurd hc (by decide),
      fun _ => ⟨rfl, ?_, rfl, rfl, ?_⟩, ?_, ?_, ?_⟩
    · show some (Value.vBool (strTruthyO (finalState d a).manager &&
        (finalState d a).manager != (finalState d a).owner)) = _
      rw [hsm, hso]
      by_cases hmo : m = o <;>
        simp [hmo, strTruthyO_some_of_ne m hm]
    · show (if strTruthyO (finalState d a).manager &&
          (finalState d a).manager != (finalState d a).owner
        then some (finalState d a).manager else none) = _
      rw [hsm, hso]
      by_cases hmo : m = o <;>
        simp [hmo, strTruthyO_some_of_ne m hm]
    · intro hd
      simp [hd]
    · intro hd
      simp [hd]
    · intro hd
      simp [hd]

/-- A plain inventory record (non-business, non-empty owner). -/
def c2WitnessRecord : Record := { owner := some "agentA" }

theorem claim_C2_mirror_table_witness :
    (updateAccountState c2WitnessRecord ⟨some "custX", some "distB",
        some ACCOUNT_STATUS_SOLD, some SALE_TYPE_DISTRIBUTION,
        some "2024-05-05"⟩).2.distribution_tag = some (.vBool true) ∧
    (updateAccountState c2WitnessRecord ⟨some "custX", some "distB",
        some ACCOUNT_STATUS_SOLD, some SALE_TYPE_DISTRIBUTION,
        some "2024-05-05"⟩).2.distributor_sold = some (.vBool true) ∧
    (updateAccountState c2WitnessRecord ⟨some "custX", some "distB",
        some ACCOUNT_STATUS_SOLD, some SALE_TYPE_DISTRIBUTION,
        some "2024-05-05"⟩).2.assigned_distributor = some (some "distB") ∧
    (updateAccountState c2WitnessRecord ⟨some "custX", some "distB",
        some ACCOUNT_STATUS_SOLD, some SALE_TYPE_DISTRIBUTION,
        some "2024-05-05"⟩).2.sale_type = some "分销售出" := by
  have h := claim_C2_mirror_table c2WitnessRecord "custX" "distB" ACCOUNT_STATUS_SOLD
    (some SALE_TYPE_DISTRIBUTION) (some "2024-05-05") (by decide) (by decide)
    (by decide) (by decide) (Or.inr (Or.inr rfl))
  obtain ⟨-, -, -, -, -, -, -, hsold, -, hm2, -⟩ := h
  obtain ⟨-, hdtag, -, hdsold, hassigned⟩ := hsold rfl
  have hst : (updateAccountState c2WitnessRecord ⟨some "custX", some "distB",
      some ACCOUNT_STATUS_SOLD, some SALE_TYPE_DISTRIBUTION,
      some "2024-05-05"⟩).1.sale_type = some SALE_TYPE_DISTRIBUTION := by decide
  refine ⟨?_, ?_, ?_, hm2 hst⟩
  · rw [hdtag]
    decide
  · rw [hdsold, hst]
    decide
  · rw [hassigned]
    decide

-- ---- pyOrS algebra and non-business sync projections ---------------------

@[simp] theorem pyOrS_self (x : Option String) : pyOrS x x = x := by
  unfold pyOrS
  split_ifs <;> rfl

theorem pyOrS_absorb (x y : Option String) : pyOrS (pyOrS x y) y = pyOrS x y := by
  by_cases hx : strTruthyO x = true <;> simp [pyOrS, hx]

theorem strTruthyO_pyOrS (x y : Option String) :
    strTruthyO (pyOrS x y) = (strTruthyO x || strTruthyO y) := by
  by_cases hx : strTruthyO x = true <;> simp [pyOrS, hx]

theorem pyOrS_of_falsy (x y : Option String) (h : strTruthyO x = false) :
    pyOrS x y = y := by
  simp [pyOrS, h]

theorem pyOrS_eq_right_of_falsy (x y : Option String)
    (h : strTruthyO (pyOrS x y) = false) : pyOrS x y = y := by
  by_cases hx : strTruthyO x = true
  · rw [strTruthyO_pyOrS, hx] at h
    simp at h
  · exact pyOrS_of_falsy x y (by simpa using hx)

theorem sync_owner_nb (x : Record) (st : AccountState)
    (h : hasBusinessRole x = false) : (syncLegacyFlags x st).owner = st.owner := by
  simp only [syncLegacyFlags, h, Bool.false_eq_true, if_false]
  split_ifs <;> rfl

theorem sync_manager_nb (x : Record) (st : AccountState)
    (h : hasBusinessRole x = false) : (syncLegacyFlags x st).manager = st.manager := by
  simp only [syncLegacyFlags, h, Bool.false_eq_true, if_false]
  split_ifs <;> rfl

theorem sync_sale_type_nb (x : Record) (st : AccountState)
    (h : hasBusinessRole x = false) :
    (syncLegacyFlags x st).sale_type = mirrorSaleField st.sale_type := by
  simp only [syncLegacyFlags, mirrorSaleField, h, Bool.false_eq_true, if_false]
  split_ifs <;> rfl

theorem sync_sold_at_nb (x : Record) (st : AccountState)
    (h : hasBusinessRole x = false) :
    (syncLegacyFlags x st).sold_at =
      (if strTruthyO st.sold_at then st.sold_at else x.sold_at) := by
  simp only [syncLegacyFlags, h, Bool.false_eq_true, if_false]
  split_ifs <;> rfl

theorem sync_forsale_nb (x : Record) (st : AccountState)
    (h : hasBusinessRole x = false) :
    (syncLegacyFlags x st).forsale =
      (if st.status = some ACCOUNT_STATUS_AGENT_STOCK then some (.vBool true)
        else some (.vBool false)) := by
  simp only [syncLegacyFlags, h, Bool.false_eq_true, if_false]
  split_ifs <;> rfl

theorem sync_distribution_tag_nb (x : Record) (st : AccountState)
    (h : hasBusinessRole x = false) :
    (syncLegacyFlags x st).distribution_tag =
      (if st.status = some ACCOUNT_STATUS_AGENT_STOCK then some (.vBool false)
        else if st.status = some ACCOUNT_STATUS_DISTRIBUTOR_STOCK then some (.vBool true)
        else some (.vBool (strTruthyO st.manager && st.manager != st.owner))) := by
  simp only [syncLegacyFlags, h, Bool.false_eq_true, if_false]
  split_ifs <;> rfl

theorem sync_distributor_forsale_nb (x : Record) (st : AccountState)
    (h : hasBusinessRole x = false) :
    (syncLegacyFlags x st).distributor_forsale =
      (if st.status = some ACCOUNT_STATUS_AGENT_STOCK then some (.vBool false)
        else if st.status = some ACCOUNT_STATUS_DISTRIBUTOR_STOCK then some (.vBool true)
        else some (.vBool false)) := by
  simp only [syncLegacyFlags, h, Bool.false_eq_true, if_false]
  split_ifs <;> rfl

theorem sync_distributor_sold_nb (x : Record) (st : AccountState)
    (h : hasBusinessRole x = false) :
    (syncLegacyFlags x st).distributor_sold =
      (if st.status = some ACCOUNT_STATUS_AGENT_STOCK then some (.vBool false)
        else if st.status = some ACCOUNT_STATUS_DISTRIBUTOR_STOCK then some (.vBool false)
        else some (.vBool (st.sale_type == some SALE_TYPE_DISTRIBUTION))) := by
  simp only [syncLegacyFlags, h, Bool.false_eq_true, if_false]
  split_ifs <;> rfl

theorem sync_assigned_nb (x : Record) (st : AccountState)
    (h : hasBusinessRole x = false) :
    (syncLegacyFlags x st).assigned_distributor =
      (if st.status = some ACCOUNT_STATUS_AGENT_STOCK then none
        else if st.status = some ACCOUNT_STATUS_DISTRIBUTOR_STOCK then some st.manager
        else if strTruthyO st.manager && st.manager != st.owner then some st.manager
        else none) := by
  simp only [syncLegacyFlags, h, Bool.false_eq_true, if_false]
  split_ifs <;> rfl

@[simp] theorem isInventoryRecord_writeAcct (x : Record) (st : AccountState) :
    isInventoryRecord (writeAcct x st) = isInventoryRecord x := rfl

@[simp] theorem acctOf_writeAcct (x : Record) (st : AccountState) :
    acctOf (writeAcct x st) = st.toAcct := rfl

-- ---- normaliseRoles idempotence ------------------------------------------

theorem mem_canonRoles (x : String) (l : List String) :
    x ∈ canonRoles l ↔ x ∈ l := by
  unfold canonRoles
  rw [(List.perm_insertionSort _ _).mem_iff, List.mem_dedup]

theorem canonRoles_idem (l : List String) : canonRoles (canonRoles l) = canonRoles l := by
  have hnd : (canonRoles l).Nodup :=
    (List.perm_insertionSort _ _).symm.nodup (List.nodup_dedup l)
  have hsorted : List.Sorted (· ≤ ·) (canonRoles l) :=
    List.sorted_insertionSort _ _
  calc canonRoles (canonRoles l)
      = List.insertionSort (· ≤ ·) (canonRoles l).dedup := rfl
    _ = List.insertionSort (· ≤ ·) (canonRoles l) := by rw [hnd.dedup]
    _ = canonRoles l := hsorted.insertionSort_eq

theorem canonRoles_ne_nil (l : List String) (h : l ≠ []) : canonRoles l ≠ [] := by
  intro hc
  apply h
  have := (List.perm_insertionSort (· ≤ ·) l.dedup).symm
  rw [canonRoles] at hc
  rw [hc] at this
  simpa [List.dedup_eq_nil] using this.eq_nil

@[simp] theorem normaliseRoles_owner (d : Record) :
    (normaliseRoles d).owner = d.owner := rfl

@[simp] theorem normaliseRoles_forsale (d : Record) :
    (normaliseRoles d).forsale = d.forsale := rfl

@[simp] theorem isInventoryRecord_normaliseRoles (d : Record) :
    isInventoryRecord (normaliseRoles d) = isInventoryRecord d := rfl

theorem normaliseRoles_spec (d : Record) :
    ∃ R : List String, R ≠ [] ∧ canonRoles R = R ∧
      normaliseRoles d = { d with
        roles := some R
        is_admin := some (.vBool (ROLE_ADMIN ∈ R))
        is_agent := some (.vBool (ROLE_AGENT ∈ R))
        is_distributor := some (.vBool (ROLE_DISTRIBUTOR ∈ R)) } := by
  unfold normaliseRoles
  set rs0 := d.roles.getD [] with hrs0
  set rs1 := if (d.is_admin.getD .vNone).truthy then rs0.insert ROLE_ADMIN else rs0 with hrs1
  set rs2 := if (d.is_agent.getD .vNone).truthy then rs1.insert ROLE_AGENT else rs1 with hrs2
  set rs3 := if (d.is_distributor.getD .vNone).truthy then rs2.insert ROLE_DISTRIBUTOR
    else rs2 with hrs3
  set rs4 := if rs3.isEmpty then [ROLE_CUSTOMER] else rs3 with hrs4
  refine ⟨canonRoles rs4, ?_, canonRoles_idem rs4, ?_⟩
  · apply canonRoles_ne_nil
    rw [hrs4]
    split_ifs with h
    · simp
    · simpa [List.isEmpty_iff] using h
  · ext : 1 <;>
      first
        | rfl
        | exact congrArg some (congrArg Value.vBool
            (decide_eq_decide.mpr (mem_canonRoles _ _).symm))

theorem normaliseRoles_idem (d : Record) :
    normaliseRoles (normaliseRoles d) = normaliseRoles d := by
  obtain ⟨R, hne, hcanon, hN⟩ := normaliseRoles_spec d
  rw [hN]
  show normaliseRoles _ = _
  unfold normaliseRoles
  simp only [Option.getD_some, Value.truthy]
  have hins : ∀ (r : String) (l : List String),
      (if decide (r ∈ l) then l.insert r else l) = l := by
    intro r l
    by_cases hm : r ∈ l <;> simp [hm, List.insert_of_mem]
  rw [hins, hins, hins]
  rw [if_neg (by simpa [List.isEmpty_iff] using hne), hcanon]

-- ---- facts about the record written by update_account_state --------------

@[simp] theorem toAcct_owner (st : AccountState) : st.toAcct.owner = st.owner := rfl

@[simp] theorem toAcct_manager (st : AccountState) : st.toAcct.manager = st.manager := rfl

@[simp] theorem toAcct_status (st : AccountState) : st.toAcct.status = st.status := rfl

@[simp] theorem toAcct_sale_type (st : AccountState) :
    st.toAcct.sale_type = st.sale_type := rfl

@[simp] theorem toAcct_sold_at (st : AccountState) : st.toAcct.sold_at = st.sold_at := rfl

theorem ensureAccounting_snd (d : Record) :
    (ensureAccounting d).2 =
      syncLegacyFlags (writeAcct d (resolveState d)) (resolveState d) := rfl

theorem upd_acct (d : Record) (a : UpdateArgs) (hinv : isInventoryRecord d = true) :
    acctOf (updateAccountState d a).2 = (finalState d a).toAcct := by
  rw [updateAccountState_snd d a hinv]
  simp [acctOf]

theorem upd_status (d : Record) (a : UpdateArgs) (hinv : isInventoryRecord d = true) :
    (updateAccountState d a).2.status = d.status := by
  rw [updateAccountState_snd d a hinv, ensureAccounting_snd]
  simp

theorem upd_roles (d : Record) (a : UpdateArgs) (hinv : isInventoryRecord d = true) :
    (updateAccountState d a).2.roles = d.roles := by
  rw [updateAccountState_snd d a hinv, ensureAccounting_snd]
  simp

theorem upd_business (d : Record) (a : UpdateArgs) (hinv : isInventoryRecord d = true) :
    hasBusinessRole (updateAccountState d a).2 = hasBusinessRole d := by
  unfold hasBusinessRole
  rw [upd_roles d a hinv]

theorem upd_record_business (d : Record) (a : UpdateArgs)
    (hinv : isInventoryRecord d = true) (hbus : hasBusinessRole d = true) :
    (updateAccountState d a).2 = writeAcct (writeAcct d (resolveState d)) (finalState d a) := by
  have h1 : (ensureAccounting d).2 = writeAcct d (resolveState d) := by
    rw [ensureAccounting_snd]
    exact sync_business _ _ (by simpa using hbus)
  rw [updateAccountState_snd d a hinv, h1, sync_business _ _ (by simpa using hbus)]

theorem hbus_outer (d : Record) (a : UpdateArgs) (hbus : hasBusinessRole d = false) :
    hasBusinessRole (writeAcct (ensureAccounting d).2 (finalState d a)) = false := by
  simp [ensureAccounting, hbus]

theorem upd_owner_nb (d : Record) (a : UpdateArgs)
    (hinv : isInventoryRecord d = true) (hbus : hasBusinessRole d = false) :
    (updateAccountState d a).2.owner = (finalState d a).owner := by
  rw [updateAccountState_snd d a hinv]
  exact sync_owner_nb _ _ (hbus_outer d a hbus)

theorem upd_manager_nb (d : Record) (a : UpdateArgs)
    (hinv : isInventoryRecord d = true) (hbus : hasBusinessRole d = false) :
    (updateAccountState d a).2.manager = (finalState d a).manager := by
  rw [updateAccountState_snd d a hinv]
  exact sync_manager_nb _ _ (hbus_outer d a hbus)

theorem upd_sale_type_nb (d : Record) (a : UpdateArgs)
    (hinv : isInventoryRecord d = true) (hbus : hasBusinessRole d = false) :
    (updateAccountState d a).2.sale_type = mirrorSaleField (finalState d a).sale_type := by
  rw [updateAccountState_snd d a hinv]
  exact sync_sale_type_nb _ _ (hbus_outer d a hbus)

theorem upd_sold_at_nb (d : Record) (a : UpdateArgs)
    (hinv : isInventoryRecord d = true) (hbus : hasBusinessRole d = false) :
    (updateAccountState d a).2.sold_at =
      (if strTruthyO (finalState d a).sold_at then (finalState d a).sold_at
        else if strTruthyO (resolveState d).sold_at then (resolveState d).sold_at
        else d.sold_at) := by
  rw [updateAccountState_snd d a hinv, sync_sold_at_nb _ _ (hbus_outer d a hbus)]
  rw [writeAcct_sold_at, ensureAccounting_snd,
    sync_sold_at_nb _ _ (by simpa using hbus), writeAcct_sold_at]

theorem upd_assigned_nb (d : Record) (a : UpdateArgs)
    (hinv : isInventoryRecord d = true) (hbus : hasBusinessRole d = false) :
    (updateAccountState d a).2.assigned_distributor =
      (if (finalState d a).status = some ACCOUNT_STATUS_AGENT_STOCK then none
        else if (finalState d a).status = some ACCOUNT_STATUS_DISTRIBUTOR_STOCK then
          some (finalState d a).manager
        else if strTruthyO (finalState d a).manager &&
            (finalState d a).manager != (finalState d a).owner then
          some (finalState d a).manager
        else none) := by
  rw [updateAccountState_snd d a hinv]
  exact sync_assigned_nb _ _ (hbus_outer d a hbus)

-- ---- validity lemmas for the resolved sale type --------------------------

theorem coerceSale_valid (t : Option String) :
    coerceSale t = none ∨ coerceSale t = some SALE_TYPE_DIRECT ∨
      coerceSale t = some SALE_TYPE_DISTRIBUTION := by
  unfold coerceSale
  split_ifs with h
  · simp only [List.mem_cons, List.mem_singleton, List.not_mem_nil, or_false] at h
    rcases h with h | h | h <;> simp [h]
  · simp

theorem coerceSale_eq_some (t : Option String) (w : String)
    (h : coerceSale t = some w) : t = some w := by
  unfold coerceSale at h
  split_ifs at h with hm
  exact h

theorem resolvedSale_valid (d : Record) :
    resolvedSale d = none ∨ resolvedSale d = some SALE_TYPE_DIRECT ∨
      resolvedSale d = some SALE_TYPE_DISTRIBUTION := by
  unfold resolvedSale
  by_cases ht : strTruthyO (coerceSale (pyOrS (acctOf d).sale_type d.sale_type)) = true
  · simpa [ht] using coerceSale_valid (pyOrS (acctOf d).sale_type d.sale_type)
  · simpa [ht] using inferSale_valid d

theorem inferSale_congr (d e : Record) (h : d.sale_type = e.sale_type) :
    inferSale d = inferSale e := by
  unfold inferSale
  rw [h]

theorem inferSale_of_none (d : Record) (h : d.sale_type = none) : inferSale d = none := by
  unfold inferSale
  rw [h]
  decide

theorem inferSale_of_direct (d : Record) (h : d.sale_type = some SALE_TYPE_DIRECT) :
    inferSale d = some SALE_TYPE_DIRECT := by
  unfold inferSale
  rw [h]
  decide

theorem inferSale_of_distribution (d : Record)
    (h : d.sale_type = some SALE_TYPE_DISTRIBUTION) :
    inferSale d = some SALE_TYPE_DISTRIBUTION := by
  unfold inferSale
  rw [h]
  decide

theorem resolvedSale_none_parts (d : Record) (h : resolvedSale d = none) :
    strTruthyO (coerceSale (pyOrS (acctOf d).sale_type d.sale_type)) = false ∧
      inferSale d = none := by
  unfold resolvedSale at h
  by_cases ht : strTruthyO (coerceSale (pyOrS (acctOf d).sale_type d.sale_type)) = true
  · rw [if_pos ht] at h
    rw [h] at ht
    simp [strTruthyO] at ht
  · rw [if_neg ht] at h
    exact ⟨by simpa using ht, h⟩

@[simp] theorem resolvedStatus_truthy (d : Record) :
    strTruthyO (resolvedStatus d) = true := coerceStatus_truthy _

@[simp] theorem coerceStatus_resolvedStatus (d : Record) :
    coerceStatus (resolvedStatus d) = resolvedStatus d := coerceStatus_idem _

-- ---- stability of finalState under a second identical update -------------

theorem stable_owner_expr (d : Record) (a : UpdateArgs)
    (hinv : isInventoryRecord d = true) :
    (if a.owner.isSome then a.owner else resolvedOwner (updateAccountState d a).2)
      = (if a.owner.isSome then a.owner else resolvedOwner d) := by
  cases ha : a.owner with
  | some v => simp [ha]
  | none =>
    simp only [ha, Option.isSome_none, Bool.false_eq_true, if_false]
    have hf : (finalState d a).owner = resolvedOwner d := by
      rw [finalState_owner]
      simp [ha]
    have hres : resolvedOwner (updateAccountState d a).2
        = pyOrS (finalState d a).owner (updateAccountState d a).2.owner := by
      unfold resolvedOwner
      rw [upd_acct d a hinv, toAcct_owner]
    rw [hres]
    by_cases hbus : hasBusinessRole d = true
    · rw [upd_record_business d a hinv hbus, writeAcct_owner, writeAcct_owner, hf]
      show pyOrS (pyOrS (acctOf d).owner d.owner) d.owner = resolvedOwner d
      rw [pyOrS_absorb]
      rfl
    · rw [upd_owner_nb d a hinv (by simpa using hbus), hf, pyOrS_self]

theorem stable_owner (d : Record) (a : UpdateArgs) (hinv : isInventoryRecord d = true) :
    (finalState (updateAccountState d a).2 a).owner = (finalState d a).owner := by
  rw [finalState_owner, finalState_owner]
  exact stable_owner_expr d a hinv

theorem stable_status (d : Record) (a : UpdateArgs) (hinv : isInventoryRecord d = true) :
    (finalState (updateAccountState d a).2 a).status = (finalState d a).status := by
  rw [finalState_status, finalState_status]
  cases ha : a.status with
  | some v => simp [ha]
  | none =>
    simp only [ha, Option.isSome_none, Bool.false_eq_true, if_false]
    have hf : (finalState d a).status = resolvedStatus d := by
      rw [finalState_status]
      simp [ha]
    have hres : resolvedStatus (updateAccountState d a).2
        = coerceStatus (pyOrS (finalState d a).status d.status) := by
      unfold resolvedStatus
      rw [upd_acct d a hinv, toAcct_status, upd_status d a hinv]
    rw [hres, hf]
    simp [pyOrS]

theorem stable_sold_at (d : Record) (a : UpdateArgs) (hinv : isInventoryRecord d = true) :
    (finalState (updateAccountState d a).2 a).sold_at = (finalState d a).sold_at := by
  rw [finalState_sold_at, finalState_sold_at]
  cases ha : a.sold_at with
  | some v => simp [ha]
  | none =>
    simp only [ha, Option.isSome_none, Bool.false_eq_true, if_false]
    have hf : (finalState d a).sold_at = resolvedSoldAt d := by
      rw [finalState_sold_at]
      simp [ha]
    have hres : resolvedSoldAt (updateAccountState d a).2
        = pyOrS (finalState d a).sold_at (updateAccountState d a).2.sold_at := by
      unfold resolvedSoldAt
      rw [upd_acct d a hinv, toAcct_sold_at]
    rw [hres]
    by_cases hbus : hasBusinessRole d = true
    · rw [upd_record_business d a hinv hbus, writeAcct_sold_at, writeAcct_sold_at, hf]
      show pyOrS (pyOrS (acctOf d).sold_at d.sold_at) d.sold_at = resolvedSoldAt d
      rw [pyOrS_absorb]
      rfl
    · rw [upd_sold_at_nb d a hinv (by simpa using hbus), hf, resolveState_sold_at]
      by_cases hS : strTruthyO (resolvedSoldAt d) = true
      · simp [pyOrS, hS]
      · have hS2 : strTruthyO (resolvedSoldAt d) = false := by simpa using hS
        simp only [hS2, Bool.false_eq_true, if_false]
        rw [pyOrS_of_falsy _ _ hS2]
        exact (show resolvedSoldAt d = d.sold_at from
          pyOrS_eq_right_of_falsy _ _ hS2).symm

theorem stable_sale_type (d : Record) (a : UpdateArgs)
    (hinv : isInventoryRecord d = true) :
    (finalState (updateAccountState d a).2 a).sale_type
      = (finalState d a).sale_type := by
  rw [finalState_sale_type, finalState_sale_type]
  cases ha : a.sale_type with
  | some v => simp [ha]
  | none =>
    simp only [ha, Option.isSome_none, Bool.false_eq_true, if_false]
    have hf : (finalState d a).sale_type = resolvedSale d := by
      rw [finalState_sale_type]
      simp [ha, coerceSale_resolvedSale]
    rw [coerceSale_resolvedSale d]
    rcases resolvedSale_valid d with hv | hv | hv
    · obtain ⟨ht1, hinf⟩ := resolvedSale_none_parts d hv
      have hD2 : resolvedSale (updateAccountState d a).2 = none := by
        unfold resolvedSale
        rw [upd_acct d a hinv, toAcct_sale_type, hf, hv,
          pyOrS_of_falsy _ _ (by rfl)]
        by_cases hbus : hasBusinessRole d = true
        · have hsale2 : (updateAccountState d a).2.sale_type = d.sale_type := by
            rw [upd_record_business d a hinv hbus, writeAcct_sale_type,
              writeAcct_sale_type]
          have ht2 : coerceSale (updateAccountState d a).2.sale_type = none := by
            rw [hsale2]
            rcases coerceSale_valid d.sale_type with h | h | h
            · exact h
            · exact absurd hinf
                (by rw [inferSale_of_direct d (coerceSale_eq_some _ _ h)]; simp)
            · exact absurd hinf
                (by rw [inferSale_of_distribution d (coerceSale_eq_some _ _ h)]; simp)
          rw [ht2, if_neg (by simp [strTruthyO]),
            inferSale_congr (updateAccountState d a).2 d hsale2, hinf]
        · have hsale2 : (updateAccountState d a).2.sale_type = none := by
            rw [upd_sale_type_nb d a hinv (by simpa using hbus), hf, hv,
              mirrorSaleField_none]
          rw [hsale2]
          rw [show coerceSale none = none from rfl, if_neg (by simp [strTruthyO])]
          exact inferSale_of_none _ hsale2
      rw [hD2, hv]
      rfl
    · have hD2 : resolvedSale (updateAccountState d a).2 = some SALE_TYPE_DIRECT := by
        unfold resolvedSale
        rw [upd_acct d a hinv, toAcct_sale_type, hf, hv]
        rw [show pyOrS (some SALE_TYPE_DIRECT) (updateAccountState d a).2.sale_type
            = some SALE_TYPE_DIRECT from by rw [pyOrS, if_pos (by decide)]]
        rw [show coerceSale (some SALE_TYPE_DIRECT) = some SALE_TYPE_DIRECT by decide]
        rw [if_pos (by decide)]
      rw [hD2, hv]
      decide
    · have hD2 : resolvedSale (updateAccountState d a).2
          = some SALE_TYPE_DISTRIBUTION := by
        unfold resolvedSale
        rw [upd_acct d a hinv, toAcct_sale_type, hf, hv]
        rw [show pyOrS (some SALE_TYPE_DISTRIBUTION)
            (updateAccountState d a).2.sale_type
            = some SALE_TYPE_DISTRIBUTION from by rw [pyOrS, if_pos (by decide)]]
        rw [show coerceSale (some SALE_TYPE_DISTRIBUTION)
            = some SALE_TYPE_DISTRIBUTION by decide]
        rw [if_pos (by decide)]
      rw [hD2, hv]
      decide

theorem stable_manager (d : Record) (a : UpdateArgs)
    (hinv : isInventoryRecord d = true) :
    (finalState (updateAccountState d a).2 a).manager
      = (finalState d a).manager := by
  rw [finalState_manager, finalState_manager, stable_owner_expr d a hinv]
  cases ha : a.manager with
  | some v => simp [ha]
  | none =>
    simp only [ha, Option.isSome_none, Bool.false_eq_true, if_false]
    have hstm : (finalState d a).manager =
        (if strTruthyO (resolvedManager d) then resolvedManager d
          else if a.owner.isSome then a.owner else resolvedOwner d) := by
      rw [finalState_manager]
      simp [ha]
    have hstown : (finalState d a).owner =
        (if a.owner.isSome then a.owner else resolvedOwner d) := finalState_owner d a
    by_cases hM : strTruthyO (finalState d a).manager = true
    · have hraw2 : resolvedManagerRaw (updateAccountState d a).2
          = (finalState d a).manager := by
        unfold resolvedManagerRaw
        rw [upd_acct d a hinv, toAcct_manager]
        simp [pyOrS, hM]
      have hM2 : resolvedManager (updateAccountState d a).2
          = (finalState d a).manager := by
        unfold resolvedManager
        rw [hraw2]
        simp [hM]
      rw [hM2, if_pos hM]
      exact hstm
    · have hM1 : strTruthyO (finalState d a).manager = false := by simpa using hM
      have hsplit : strTruthyO (resolvedManager d) = false ∧
          (finalState d a).manager
            = (if a.owner.isSome then a.owner else resolvedOwner d) := by
        by_cases hMc : strTruthyO (resolvedManager d) = true
        · rw [hstm, if_pos hMc] at hM1
          exact absurd hM1 (by simp [hMc])
        · exact ⟨by simpa using hMc, by rw [hstm, if_neg hMc]⟩
      obtain ⟨hMf, hstO⟩ := hsplit
      have hOf : strTruthyO (if a.owner.isSome then a.owner else resolvedOwner d)
          = false := by
        rw [← hstO]
        exact hM1
      have hstOwnf : strTruthyO (finalState d a).owner = false := by
        rw [hstown]
        exact hOf
      have hrawOwn : strTruthyO (resolvedManagerRaw d) = false ∧
          strTruthyO (resolvedOwner d) = false := by
        by_cases hr : strTruthyO (resolvedManagerRaw d) = true
        · exfalso
          unfold resolvedManager at hMf
          rw [if_pos hr] at hMf
          rw [hr] at hMf
          exact Bool.noConfusion hMf
        · have hr2 : strTruthyO (resolvedManagerRaw d) = false := by simpa using hr
          refine ⟨hr2, ?_⟩
          unfold resolvedManager at hMf
          rw [if_neg hr] at hMf
          exact hMf
      obtain ⟨hrawf, hROf⟩ := hrawOwn
      have hcomp : strTruthyO d.manager = false ∧
          strTruthyO (d.assigned_distributor.getD none) = false ∧
          strTruthyO d.owner = false := by
        have := hrawf
        unfold resolvedManagerRaw at this
        rw [strTruthyO_pyOrS, strTruthyO_pyOrS, strTruthyO_pyOrS] at this
        simp only [Bool.or_eq_false_iff] at this
        exact ⟨this.2.1, this.2.2.1, this.2.2.2⟩
      have hres2 : resolvedManagerRaw (updateAccountState d a).2
          = pyOrS (finalState d a).manager
            (pyOrS (updateAccountState d a).2.manager
              (pyOrS ((updateAccountState d a).2.assigned_distributor.getD none)
                (updateAccountState d a).2.owner)) := by
        unfold resolvedManagerRaw
        rw [upd_acct d a hinv, toAcct_manager]
      have hresO2 : resolvedOwner (updateAccountState d a).2
          = pyOrS (finalState d a).owner (updateAccountState d a).2.owner := by
        unfold resolvedOwner
        rw [upd_acct d a hinv, toAcct_owner]
      have hM2f : strTruthyO (resolvedManager (updateAccountState d a).2)
          = false := by
        by_cases hbus : hasBusinessRole d = true
        · have hD2m : (updateAccountState d a).2.manager = d.manager := by
            rw [upd_record_business d a hinv hbus]
            rfl
          have hD2o : (updateAccountState d a).2.owner = d.owner := by
            rw [upd_record_business d a hinv hbus]
            rfl
          have hD2av : (updateAccountState d a).2.assigned_distributor
              = d.assigned_distributor := by
            rw [upd_record_business d a hinv hbus]
            rfl
          have hraw2f : strTruthyO (resolvedManagerRaw (updateAccountState d a).2)
              = false := by
            rw [hres2, hD2m, hD2o, hD2av, strTruthyO_pyOrS, strTruthyO_pyOrS,
              strTruthyO_pyOrS, hM1, hcomp.1, hcomp.2.1, hcomp.2.2]
            rfl
          have hRO2f : strTruthyO (resolvedOwner (updateAccountState d a).2) = false := by
            rw [hresO2, hD2o, strTruthyO_pyOrS, hstOwnf, hcomp.2.2]
            rfl
          unfold resolvedManager
          rw [if_neg (by simp [hraw2f])]
          exact hRO2f
        · have hbus2 : hasBusinessRole d = false := by simpa using hbus
          have hD2m : (updateAccountState d a).2.manager = (finalState d a).manager :=
            upd_manager_nb d a hinv hbus2
          have hD2o : (updateAccountState d a).2.owner = (finalState d a).owner :=
            upd_owner_nb d a hinv hbus2
          have hD2av : strTruthyO
              ((updateAccountState d a).2.assigned_distributor.getD none) = false := by
            rw [upd_assigned_nb d a hinv hbus2]
            split_ifs <;> simp only [Option.getD_none, Option.getD_some] <;>
              first
                | rfl
                | exact hM1
          have hraw2f : strTruthyO (resolvedManagerRaw (updateAccountState d a).2)
              = false := by
            rw [hres2, hD2m, hD2o, strTruthyO_pyOrS, strTruthyO_pyOrS,
              strTruthyO_pyOrS, hM1, hD2av, hstOwnf]
            rfl
          have hRO2f : strTruthyO (resolvedOwner (updateAccountState d a).2) = false := by
            rw [hresO2, hD2o, strTruthyO_pyOrS, hstOwnf]
            rfl
          unfold resolvedManager
          rw [if_neg (by simp [hraw2f])]
          exact hRO2f
      simp [hMf, hM2f]

theorem finalState_stable (d : Record) (a : UpdateArgs)
    (hinv : isInventoryRecord d = true) :
    finalState (updateAccountState d a).2 a = finalState d a := by
  ext : 1
  · exact stable_owner d a hinv
  · exact stable_manager d a hinv
  · exact stable_status d a hinv
  · exact stable_sale_type d a hinv
  · exact stable_sold_at d a hinv

theorem upd_forsale_nb (d : Record) (a : UpdateArgs)
    (hinv : isInventoryRecord d = true) (hbus : hasBusinessRole d = false) :
    (updateAccountState d a).2.forsale =
      (if (finalState d a).status = some ACCOUNT_STATUS_AGENT_STOCK then
        some (.vBool true) else some (.vBool false)) := by
  rw [updateAccountState_snd d a hinv]
  exact sync_forsale_nb _ _ (hbus_outer d a hbus)

theorem upd_distribution_tag_nb (d : Record) (a : UpdateArgs)
    (hinv : isInventoryRecord d = true) (hbus : hasBusinessRole d = false) :
    (updateAccountState d a).2.distribution_tag =
      (if (finalState d a).status = some ACCOUNT_STATUS_AGENT_STOCK then
          some (.vBool false)
        else if (finalState d a).status = some ACCOUNT_STATUS_DISTRIBUTOR_STOCK then
          some (.vBool true)
        else some (.vBool (strTruthyO (finalState d a).manager &&
          (finalState d a).manager != (finalState d a).owner))) := by
  rw [updateAccountState_snd d a hinv]
  exact sync_distribution_tag_nb _ _ (hbus_outer d a hbus)

theorem upd_distributor_forsale_nb (d : Record) (a : UpdateArgs)
    (hinv : isInventoryRecord d = true) (hbus : hasBusinessRole d = false) :
    (updateAccountState d a).2.distributor_forsale =
      (if (finalState d a).status = some ACCOUNT_STATUS_AGENT_STOCK then
          some (.vBool false)
        else if (finalState d a).status = some ACCOUNT_STATUS_DISTRIBUTOR_STOCK then
          some (.vBool true)
        else some (.vBool false)) := by
  rw [updateAccountState_snd d a hinv]
  exact sync_distributor_forsale_nb _ _ (hbus_outer d a hbus)

theorem upd_distributor_sold_nb (d : Record) (a : UpdateArgs)
    (hinv : isInventoryRecord d = true) (hbus : hasBusinessRole d = false) :
    (updateAccountState d a).2.distributor_sold =
      (if (finalState d a).status = some ACCOUNT_STATUS_AGENT_STOCK then
          some (.vBool false)
        else if (finalState d a).status = some ACCOUNT_STATUS_DISTRIBUTOR_STOCK then
          some (.vBool false)
        else some (.vBool ((finalState d a).sale_type
          == some SALE_TYPE_DISTRIBUTION))) := by
  rw [updateAccountState_snd d a hinv]
  exact sync_distributor_sold_nb _ _ (hbus_outer d a hbus)

theorem upd_inventory (d : Record) (a : UpdateArgs)
    (hinv : isInventoryRecord d = true) :
    isInventoryRecord (updateAccountState d a).2 = true := by
  by_cases hbus : hasBusinessRole d = true
  · rw [upd_record_business d a hinv hbus]
    simpa using hinv
  · have hbus2 : hasBusinessRole d = false := by simpa using hbus
    have hfs : (updateAccountState d a).2.forsale.isSome = true := by
      rw [upd_forsale_nb d a hinv hbus2]
      split_ifs <;> rfl
    simp [isInventoryRecord, hfs]

theorem record_stable (d : Record) (a : UpdateArgs)
    (hinv : isInventoryRecord d = true) :
    (updateAccountState (updateAccountState d a).2 a).2 = (updateAccountState d a).2 := by
  have hinv2 := upd_inventory d a hinv
  have hacct : (updateAccountState d a).2.accounting = some (finalState d a).toAcct := by
    rw [updateAccountState_snd d a hinv]
    simp
  rw [updateAccountState_snd _ a hinv2, finalState_stable d a hinv]
  by_cases hbus : hasBusinessRole d = true
  · have hb2 : hasBusinessRole (updateAccountState d a).2 = true := by
      rw [upd_business d a hinv]
      exact hbus
    rw [ensureAccounting_snd, sync_business _ _ (by simpa using hb2),
      sync_business _ _ (by simpa using hb2)]
    ext : 1 <;> first | rfl | exact hacct.symm
  · have hbus2 : hasBusinessRole d = false := by simpa using hbus
    have hb2 : hasBusinessRole (updateAccountState d a).2 = false := by
      rw [upd_business d a hinv]
      exact hbus2
    have hbB : hasBusinessRole (writeAcct (ensureAccounting (updateAccountState d a).2).2
        (finalState d a)) = false := by
      simp [ensureAccounting, hb2]
    ext : 1
    · rw [sync_owner_nb _ _ hbB, upd_owner_nb d a hinv hbus2]
    · rw [sync_manager_nb _ _ hbB, upd_manager_nb d a hinv hbus2]
    · rw [sync_assigned_nb _ _ hbB, upd_assigned_nb d a hinv hbus2]
    · rw [syncLegacyFlags_status, writeAcct_status, ensureAccounting_snd,
        syncLegacyFlags_status, writeAcct_status, upd_status d a hinv]
    · rw [sync_sale_type_nb _ _ hbB, upd_sale_type_nb d a hinv hbus2]
    · rw [sync_sold_at_nb _ _ hbB, writeAcct_sold_at, ensureAccounting_snd,
        sync_sold_at_nb _ _ (by simpa using hb2), writeAcct_sold_at,
        resolveState_sold_at]
      have hres : resolvedSoldAt (updateAccountState d a).2
          = pyOrS (finalState d a).sold_at (updateAccountState d a).2.sold_at := by
        unfold resolvedSoldAt
        rw [upd_acct d a hinv, toAcct_sold_at]
      rw [hres]
      by_cases hts : strTruthyO (finalState d a).sold_at = true
      · rw [if_pos hts, upd_sold_at_nb d a hinv hbus2, if_pos hts]
      · have hts2 : strTruthyO (finalState d a).sold_at = false := by simpa using hts
        rw [if_neg (by simp [hts2]), pyOrS_of_falsy _ _ hts2, ite_self]
    · rw [sync_forsale_nb _ _ hbB, upd_forsale_nb d a hinv hbus2]
    · rw [sync_distribution_tag_nb _ _ hbB, upd_distribution_tag_nb d a hinv hbus2]
    · rw [sync_distributor_forsale_nb _ _ hbB, upd_distributor_forsale_nb d a hinv hbus2]
    · rw [sync_distributor_sold_nb _ _ hbB, upd_distributor_sold_nb d a hinv hbus2]
    · rw [syncLegacyFlags_source, writeAcct_source, ensureAccounting_snd,
        syncLegacyFlags_source, writeAcct_source]
    · rw [syncLegacyFlags_roles, writeAcct_roles, ensureAccounting_snd,
        syncLegacyFlags_roles, writeAcct_roles]
    · rw [syncLegacyFlags_is_admin, writeAcct_is_admin, ensureAccounting_snd,
        syncLegacyFlags_is_admin, writeAcct_is_admin]
    · rw [syncLegacyFlags_is_agent, writeAcct_is_agent, ensureAccounting_snd,
        syncLegacyFlags_is_agent, writeAcct_is_agent]
    · rw [syncLegacyFlags_is_distributor, writeAcct_is_distributor, ensureAccounting_snd,
        syncLegacyFlags_is_distributor, writeAcct_is_distributor]
    · rw [syncLegacyFlags_accounting, writeAcct_accounting]
      exact hacct.symm

-- ---- C6: idempotence of update_account_state ------------------------------

/-- C6 (amended): `update_account_state` is idempotent — applying it a
second time with the same arguments changes neither the returned state
nor the record — and, on inventory records, every state field whose
argument is omitted retains its prior (resolved) value, except that the
unconditional `ensure_defaults` re-coerces an empty retained manager to
the (possibly freshly updated) owner.  The unamended retention claim is
refuted by `claim_C6_counterexample`. -/
theorem claim_C6_update_idempotent (d : Record) (a : UpdateArgs) :
    updateAccountState (updateAccountState d a).2 a = updateAccountState d a ∧
      (isInventoryRecord d = true →
        (a.owner = none →
          (updateAccountState d a).1.owner = (resolveState d).owner) ∧
        (a.status = none →
          (updateAccountState d a).1.status = (resolveState d).status) ∧
        (a.sale_type = none →
          (updateAccountState d a).1.sale_type = (resolveState d).sale_type) ∧
        (a.sold_at = none →
          (updateAccountState d a).1.sold_at = (resolveState d).sold_at) ∧
        (a.manager = none →
          (updateAccountState d a).1.manager =
            (if strTruthyO (resolveState d).manager then (resolveState d).manager
              else (updateAccountState d a).1.owner))) := by
  constructor
  · by_cases hinv : isInventoryRecord d = true
    · refine Prod.ext ?_ ?_
      · rw [updateAccountState_fst _ a (upd_inventory d a hinv),
          updateAccountState_fst d a hinv]
        exact finalState_stable d a hinv
      · exact record_stable d a hinv
    · have hinv2 : isInventoryRecord d = false := by simpa using hinv
      simp [updateAccountState, hinv2, normaliseRoles_idem]
  · intro hinv
    refine ⟨?_, ?_, ?_, ?_, ?_⟩
    · intro hao
      rw [updateAccountState_fst d a hinv, finalState_owner, resolveState_owner]
      simp [hao]
    · intro has
      rw [updateAccountState_fst d a hinv, finalState_status, resolveState_status]
      simp [has]
    · intro hat
      rw [updateAccountState_fst d a hinv, finalState_sale_type,
        resolveState_sale_type]
      simp [hat, coerceSale_resolvedSale]
    · intro had
      rw [updateAccountState_fst d a hinv, finalState_sold_at, resolveState_sold_at]
      simp [had]
    · intro ham
      rw [updateAccountState_fst d a hinv, finalState_manager, finalState_owner,
        resolveState_manager]
      simp [ham]

/-- An inventory record (the `forsale` key is present) with no owner and
no manager. -/
def c6CounterRecord : Record := { forsale := some (.vBool true) }

/-- C6 counterexample: updating `c6CounterRecord` with only `owner="x"`
changes the `manager` field even though the manager argument was omitted:
the record's prior resolved manager is `None`, but after the update the
manager is `"x"` (re-derived from the new owner by `ensure_defaults`),
refuting "fields of the state not explicitly passed retain their prior
values". -/
theorem claim_C6_counterexample :
    (updateAccountState c6CounterRecord ⟨some "x", none, none, none, none⟩).1.manager
        = some "x" ∧
      (resolveState c6CounterRecord).manager = none ∧
      some "x" ≠ (none : Option String) := by
  refine ⟨by decide, by decide, by decide⟩

/-- An inventory record used to instantiate the idempotence theorem. -/
def c6WitnessRecord : Record := { owner := some "agentB", sold_at := some "2024-02-02" }

theorem claim_C6_update_idempotent_witness :
    updateAccountState
        (updateAccountState c6WitnessRecord ⟨some "x", none, none, none, none⟩).2
        ⟨some "x", none, none, none, none⟩
      = updateAccountState c6WitnessRecord ⟨some "x", none, none, none, none⟩ ∧
    (updateAccountState c6WitnessRecord
        ⟨some "x", none, none, none, none⟩).1.sold_at
      = (resolveState c6WitnessRecord).sold_at := by
  have h := claim_C6_update_idempotent c6WitnessRecord ⟨some "x", none, none, none, none⟩
  exact ⟨h.1, (h.2 (by decide)).2.2.2.1 rfl⟩

end UserManager
